import Mathlib

/-!
Shallow embedding of the Iron Stag confidence-calibration engine
(`backend/region_calibration.py`, `backend/calibration_jobs.py`,
`backend/adaptive_calibration.py`) and proofs about it.

Numeric values are modelled over `ℚ` (Python floats idealised as exact
rationals).  Python's banker's rounding (`round`) is modelled by `pyRound`
and 4-decimal rounding (`round(x, 4)`) by `round4`.  Python truthiness of
`x or y` chains on numbers and strings is modelled by the `falsyOr*`
helpers.  Timestamps, UUIDs and log output are irrelevant to the verified
properties and are omitted from the records.
-/

/-- Python `round`: round half to even, returning an integer. -/
def pyRound (q : ℚ) : ℤ :=
  let f := ⌊q⌋
  let r := q - f
  if r < 1/2 then f
  else if 1/2 < r then f + 1
  else if f % 2 = 0 then f else f + 1

/-- Python `round(x, 4)`: round half to even at four decimal places. -/
def round4 (q : ℚ) : ℚ :=
  (pyRound (q * 10000) : ℚ) / 10000

/-- Python `int(x)` on a float: truncation toward zero. -/
def pyTrunc (q : ℚ) : ℤ :=
  if q < 0 then -⌊-q⌋ else ⌊q⌋

/-- Python `a or b` for an optional integer `a` (0 and NULL are falsy). -/
def falsyOrI (a : Option ℤ) (b : ℤ) : ℤ :=
  match a with
  | some v => if v = 0 then b else v
  | none => b

/-- Python `a or b` for an optional string `a` ("" and NULL are falsy). -/
def falsyOrS (a : Option String) (b : String) : String :=
  match a with
  | some s => if s = "" then b else s
  | none => b

/-- Python truthiness of an optional string (NULL and "" are falsy). -/
def pyTruthyStr : Option String → Bool
  | none => false
  | some s => s ≠ ""

/-- Lowercasing used for `deer_sex.lower()` and trust-source lookups. -/
def strLower (s : String) : String := s.map Char.toLower

/-- Uppercasing used for `state.upper()`. -/
def strUpper (s : String) : String := s.map Char.toUpper

-- ===========================================================================
-- region_calibration.py : configuration constants (environment defaults)
-- ===========================================================================

def AGE_CONFIDENCE_BASE_SCALE : ℚ := 0.75
def RECOMMENDATION_CONFIDENCE_BASE_SCALE : ℚ := 0.95
def MAX_AGE_CONFIDENCE : ℚ := 0.85
def MAX_RECOMMENDATION_CONFIDENCE : ℚ := 0.95
def NULL_AGE_PENALTY : ℚ := 0.4
def LOW_ANTLER_INFO_PENALTY : ℚ := 0.1
def UNKNOWN_SEX_PENALTY : ℚ := 0.05
def CALIBRATION_VERSION : String := "v2-region-heuristic"

/-- `RegionKey` enumeration from `region_calibration.py`. -/
inductive RegionKey where
  | MIDWEST | SOUTHEAST | NORTHEAST | PLAINS | SOUTH_TEXAS | NORTHERN | UNKNOWN
deriving DecidableEq, Repr

/-- String value of a `RegionKey` (the Python `str`-enum value). -/
def RegionKey.value : RegionKey → String
  | .MIDWEST => "midwest"
  | .SOUTHEAST => "southeast"
  | .NORTHEAST => "northeast"
  | .PLAINS => "plains"
  | .SOUTH_TEXAS => "south_texas"
  | .NORTHERN => "northern"
  | .UNKNOWN => "unknown"

/-- `RegionKey(s)` constructor with the `ValueError → UNKNOWN` fallback used
by `recalibrate_scans`. -/
def regionKeyOfString (s : String) : RegionKey :=
  if s = "midwest" then .MIDWEST
  else if s = "southeast" then .SOUTHEAST
  else if s = "northeast" then .NORTHEAST
  else if s = "plains" then .PLAINS
  else if s = "south_texas" then .SOUTH_TEXAS
  else if s = "northern" then .NORTHERN
  else .UNKNOWN

/-- `STATE_TO_REGION_V1` lookup, with the `.get(state, UNKNOWN)` default. -/
def STATE_TO_REGION_V1 (state : String) : RegionKey :=
  if state = "TX" then .SOUTH_TEXAS
  else if state = "IA" ∨ state = "IL" ∨ state = "IN" ∨ state = "KS" ∨
          state = "MI" ∨ state = "MN" ∨ state = "MO" ∨ state = "ND" ∨
          state = "NE" ∨ state = "OH" ∨ state = "SD" ∨ state = "WI" then .MIDWEST
  else if state = "AL" ∨ state = "AR" ∨ state = "FL" ∨ state = "GA" ∨
          state = "KY" ∨ state = "LA" ∨ state = "MS" ∨ state = "NC" ∨
          state = "OK" ∨ state = "SC" ∨ state = "TN" ∨ state = "VA" ∨
          state = "WV" then .SOUTHEAST
  else if state = "CT" ∨ state = "DE" ∨ state = "MA" ∨ state = "MD" ∨
          state = "ME" ∨ state = "NH" ∨ state = "NJ" ∨ state = "NY" ∨
          state = "PA" ∨ state = "RI" ∨ state = "VT" then .NORTHEAST
  else if state = "CO" ∨ state = "MT" ∨ state = "NM" ∨ state = "WY" ∨
          state = "UT" ∨ state = "ID" ∨ state = "NV" ∨ state = "AZ" ∨
          state = "WA" ∨ state = "OR" ∨ state = "CA" then .PLAINS
  else if state = "AK" then .NORTHERN
  else .UNKNOWN

/-- `REGION_DIFFICULTY_MULTIPLIERS` (total over the enum, so the `.get`
default 0.88 is never taken for an enum key). -/
def REGION_DIFFICULTY_MULTIPLIERS : RegionKey → ℚ
  | .MIDWEST => 1.00
  | .NORTHEAST => 0.95
  | .PLAINS => 0.90
  | .SOUTHEAST => 0.85
  | .SOUTH_TEXAS => 0.80
  | .NORTHERN => 0.90
  | .UNKNOWN => 0.88

/-- `REGION_UNCERTAINTY_THRESHOLDS` (total over the enum). -/
def REGION_UNCERTAINTY_THRESHOLDS : RegionKey → ℚ
  | .MIDWEST => 0.55
  | .NORTHEAST => 0.60
  | .PLAINS => 0.62
  | .SOUTHEAST => 0.65
  | .SOUTH_TEXAS => 0.70
  | .NORTHERN => 0.62
  | .UNKNOWN => 0.68

-- ===========================================================================
-- region_calibration.py : region assignment
-- ===========================================================================

/-- How the region was determined (`RegionSource`). -/
def RS_SCAN_INPUT : String := "scan_input"
def RS_USER_PROFILE : String := "user_profile"
def RS_FALLBACK_UNKNOWN : String := "fallback_unknown"

structure RegionInfo where
  region_key : RegionKey
  region_source : String
  region_state : Option String
deriving DecidableEq, Repr

/-- `get_region_from_state`. -/
def get_region_from_state (state : Option String) : RegionKey :=
  match state with
  | none => .UNKNOWN
  | some s =>
    if s = "" then .UNKNOWN
    else STATE_TO_REGION_V1 (strUpper s).trim

/-- `determine_region`: scan state, then user-profile state, then unknown. -/
def determine_region (scan_state : Option String) (user_profile_state : Option String) :
    RegionInfo :=
  match scan_state with
  | some s =>
    if s ≠ "" then
      let state_clean := (strUpper s).trim
      if state_clean.length = 2 then
        ⟨get_region_from_state (some state_clean), RS_SCAN_INPUT, some state_clean⟩
      else fallbackProfile
    else fallbackProfile
  | none => fallbackProfile
where
  fallbackProfile : RegionInfo :=
    match user_profile_state with
    | some s =>
      if s ≠ "" then
        let state_clean := (strUpper s).trim
        if state_clean.length = 2 then
          ⟨get_region_from_state (some state_clean), RS_USER_PROFILE, some state_clean⟩
        else ⟨.UNKNOWN, RS_FALLBACK_UNKNOWN, none⟩
      else ⟨.UNKNOWN, RS_FALLBACK_UNKNOWN, none⟩
    | none => ⟨.UNKNOWN, RS_FALLBACK_UNKNOWN, none⟩

-- ===========================================================================
-- region_calibration.py : heuristic calibrators and uncertainty gate
-- ===========================================================================

/-- `compute_age_confidence_with_region`: penalty/scale pipeline on the age
axis, returning a 0–1 confidence. -/
def compute_age_confidence_with_region (raw_confidence : ℚ)
    (predicted_age : Option ℚ) (deer_sex : Option String)
    (antler_points antler_points_left antler_points_right : Option ℤ)
    (region_key : RegionKey) : ℚ :=
  let base_confidence := raw_confidence / 100
  let scaled := base_confidence * AGE_CONFIDENCE_BASE_SCALE
  let scaled :=
    if predicted_age = none ∨ predicted_age = some 0 then
      scaled * (1 - NULL_AGE_PENALTY) else scaled
  let has_antler_detail :=
    antler_points ≠ none ∧ antler_points_left ≠ none ∧ antler_points_right ≠ none
  let scaled := if ¬has_antler_detail then scaled * (1 - LOW_ANTLER_INFO_PENALTY) else scaled
  let scaled :=
    if deer_sex = none ∨ (deer_sex.map strLower) = some "unknown" then
      scaled * (1 - UNKNOWN_SEX_PENALTY) else scaled
  let scaled := scaled * REGION_DIFFICULTY_MULTIPLIERS region_key
  let scaled := min scaled MAX_AGE_CONFIDENCE
  max 0 scaled

/-- `compute_recommendation_confidence_with_region` (no region multiplier). -/
def compute_recommendation_confidence_with_region (raw_confidence : ℚ)
    (recommendation : Option String) (predicted_age : Option ℚ)
    (_deer_sex : Option String) (_region_key : RegionKey) : ℚ :=
  let base_confidence := raw_confidence / 100
  let scaled := base_confidence * RECOMMENDATION_CONFIDENCE_BASE_SCALE
  let scaled :=
    if predicted_age = none ∨ predicted_age = some 0 then scaled * 0.90 else scaled
  let scaled := if recommendation = none then scaled * 0.5 else scaled
  let scaled := min scaled MAX_RECOMMENDATION_CONFIDENCE
  max 0 scaled

/-- `apply_uncertainty_gate`: below the region threshold the age is nulled. -/
def apply_uncertainty_gate (calibrated_age_confidence : ℚ) (region_key : RegionKey)
    (predicted_age : Option ℚ) : Bool × Option ℚ :=
  let threshold := REGION_UNCERTAINTY_THRESHOLDS region_key
  if calibrated_age_confidence < threshold then (true, none)
  else (false, predicted_age)

-- ===========================================================================
-- calibration_jobs.py : data structures and configuration defaults
-- ===========================================================================

def GLOBAL_CURVE_MIN_SAMPLES : ℕ := 500
def REGION_CURVE_MIN_SAMPLES : ℕ := 200
def BIN_MIN_SAMPLES : ℕ := 20
def RECALIBRATION_BATCH_SIZE : ℕ := 100

/-- `CONFIDENCE_BINS`: the 10 fixed-width bins over 0–100. -/
def CONFIDENCE_BINS : List (ℕ × ℕ) :=
  [(0, 10), (10, 20), (20, 30), (30, 40), (40, 50),
   (50, 60), (60, 70), (70, 80), (80, 90), (90, 100)]

/-- One confidence bin of a calibration curve. -/
structure CalibrationBin where
  min_confidence : ℕ
  max_confidence : ℕ
  sample_count : ℕ
  correct_count : ℕ
  calibrated_confidence : ℚ
deriving DecidableEq, Repr

/-- A stored calibration-curve row (timestamps and the `method` column are
omitted; neither is read by any verified code path). -/
structure CurveRow where
  id : String
  calibration_version : String
  curve_type : String
  region_key : Option String
  bins : List CalibrationBin
  sample_count : ℤ
  min_samples_required : ℤ
  is_active : Bool
deriving DecidableEq, Repr

/-- `compute_bin_index`: clamp to [0,100], then floor-divide by 10, cap at 9. -/
def compute_bin_index (confidence : ℤ) : ℕ :=
  min ((max 0 (min 100 confidence)).toNat / 10) 9

/-- Python list indexing (negative index counts from the end). -/
def pyListGet (l : List CalibrationBin) (idx : ℤ) : Option CalibrationBin :=
  if 0 ≤ idx then l.get? idx.toNat else l.get? (l.length + idx).toNat

/-- `_apply_curve` from `region_calibration.py` (live scoring path): returns
the calibrated 0–1 confidence; under-sampled bins fall back to `raw/100`
without reporting anything. -/
def apply_curve_live (raw_confidence : ℚ) (curve_bins : List CalibrationBin) : ℚ :=
  if curve_bins = [] then raw_confidence / 100
  else
    let conf := raw_confidence
    let bin_idx : ℤ := min ⌊conf / 10⌋ 9
    if bin_idx < (curve_bins.length : ℤ) then
      match pyListGet curve_bins bin_idx with
      | some bin_data =>
        if BIN_MIN_SAMPLES ≤ bin_data.sample_count then bin_data.calibrated_confidence
        else conf / 100
      | none => conf / 100
    else conf / 100

/-- `apply_curve_calibration` from `calibration_jobs.py` (batch path):
returns `(calibrated_confidence, used_fallback)`. -/
def apply_curve_calibration (raw_confidence : ℤ) (curve_bins : List CalibrationBin) :
    ℚ × Bool :=
  if curve_bins = [] then ((raw_confidence : ℚ) / 100, true)
  else
    let bin_idx := compute_bin_index raw_confidence
    if (bin_idx : ℤ) < (curve_bins.length : ℤ) then
      match curve_bins.get? bin_idx with
      | some bin_data =>
        if BIN_MIN_SAMPLES ≤ bin_data.sample_count then (bin_data.calibrated_confidence, false)
        else ((raw_confidence : ℚ) / 100, true)
      | none => ((raw_confidence : ℚ) / 100, true)
    else ((raw_confidence : ℚ) / 100, true)

-- ===========================================================================
-- region_calibration.py : the live calibration orchestrator
-- ===========================================================================

/-- Feature flags of `RegionCalibrationConfig` (defaults as in the source). -/
structure CalibrationFlags where
  CALIBRATION_ENABLED : Bool := true
  CALIBRATION_REGION_ENABLED : Bool := true
  CALIBRATION_CURVES_ENABLED : Bool := false
deriving DecidableEq, Repr

/-- `RegionCalibrationInput`. -/
structure RegionCalibrationInput where
  raw_confidence : ℚ
  predicted_age : Option ℚ := none
  recommendation : Option String := none
  deer_sex : Option String := none
  antler_points : Option ℤ := none
  antler_points_left : Option ℤ := none
  antler_points_right : Option ℤ := none
  state : Option String := none
  user_profile_state : Option String := none
  raw_age_confidence : Option ℚ := none
  raw_recommendation_confidence : Option ℚ := none
deriving DecidableEq, Repr

/-- `RegionCalibrationOutput`. -/
structure RegionCalibrationOutput where
  raw_confidence : ℚ
  original_age : Option ℚ
  region_key : String
  region_source : String
  region_state : Option String
  calibrated_age_confidence : ℤ
  calibrated_recommendation_confidence : ℤ
  age_uncertain : Bool
  adjusted_age : Option ℚ
  calibration_version : String
  calibration_strategy : String
  calibration_fallback_reason : Option String := none
  raw_age_confidence : Option ℤ := none
  raw_recommendation_confidence : Option ℤ := none
deriving DecidableEq, Repr

/-- Key of the active-curve dictionary: `(curve_type, region_key)`. -/
abbrev CurveKey := String × Option String

/-- Lookup in a Python dict modelled as an association list with unique keys
(the dict builders below overwrite in place, keeping keys unique). -/
def dictFind {β : Type} (d : List (CurveKey × β)) (k : CurveKey) : Option β :=
  (d.find? (fun p => p.1 = k)).map (·.2)

/-- `calibrate_with_region`: the live fallback-chain orchestrator. -/
def calibrate_with_region (flags : CalibrationFlags)
    (input_data : RegionCalibrationInput)
    (active_curves : Option (List (CurveKey × CurveRow))) : RegionCalibrationOutput :=
  if ¬flags.CALIBRATION_ENABLED then
    { raw_confidence := input_data.raw_confidence
      original_age := input_data.predicted_age
      region_key := RegionKey.UNKNOWN.value
      region_source := RS_FALLBACK_UNKNOWN
      region_state := none
      calibrated_age_confidence := pyTrunc input_data.raw_confidence
      calibrated_recommendation_confidence := pyTrunc input_data.raw_confidence
      age_uncertain := false
      adjusted_age := input_data.predicted_age
      calibration_version := "disabled"
      calibration_strategy := "legacy"
      calibration_fallback_reason := some "calibration_disabled" }
  else
    let region_info := determine_region input_data.state input_data.user_profile_state
    let region_key := region_info.region_key
    -- Phase 2: curve-based calibration when enabled and curves are non-empty
    let curvesTruthy : Bool := flags.CALIBRATION_CURVES_ENABLED &&
      match active_curves with
      | some l => l ≠ []
      | none => false
    let ageCurveChoice : Option (CurveRow × String × Option String) :=
      if curvesTruthy then
        let curves := active_curves.getD []
        match dictFind curves ("region_age", some region_key.value) with
        | some curve => some (curve, "curve_region", none)
        | none =>
          match dictFind curves ("global_age", none) with
          | some curve => some (curve, "curve_global", some "region_curve_missing")
          | none => none
      else none
    let recCurveChoice : Option CurveRow :=
      if curvesTruthy then
        let curves := active_curves.getD []
        match dictFind curves ("region_recommendation", some region_key.value) with
        | some curve => some curve
        | none => dictFind curves ("global_recommendation", none)
      else none
    -- Age axis
    let (age_confidence, calibration_strategy, fallback_reason, calibration_version) :=
      match ageCurveChoice with
      | some (curve, strat, fb) =>
        (apply_curve_live input_data.raw_confidence curve.bins, strat, fb,
         curve.calibration_version)
      | none =>
        let fb : Option String :=
          if flags.CALIBRATION_CURVES_ENABLED then some "no_active_curves" else none
        if flags.CALIBRATION_REGION_ENABLED then
          (compute_age_confidence_with_region input_data.raw_confidence
             input_data.predicted_age input_data.deer_sex input_data.antler_points
             input_data.antler_points_left input_data.antler_points_right region_key,
           "heuristic_region", fb, CALIBRATION_VERSION)
        else
          (compute_age_confidence_with_region input_data.raw_confidence
             input_data.predicted_age input_data.deer_sex input_data.antler_points
             input_data.antler_points_left input_data.antler_points_right
             RegionKey.MIDWEST,
           "heuristic_global",
           (match fb with
            | some r => some r
            | none => some "region_calibration_disabled"), CALIBRATION_VERSION)
    -- Recommendation axis
    let recommendation_confidence :=
      match recCurveChoice with
      | some curve => apply_curve_live input_data.raw_confidence curve.bins
      | none =>
        compute_recommendation_confidence_with_region input_data.raw_confidence
          input_data.recommendation input_data.predicted_age input_data.deer_sex region_key
    let (age_uncertain, adjusted_age) :=
      apply_uncertainty_gate age_confidence region_key input_data.predicted_age
    { raw_confidence := input_data.raw_confidence
      original_age := input_data.predicted_age
      region_key := region_key.value
      region_source := region_info.region_source
      region_state := region_info.region_state
      calibrated_age_confidence := pyRound (age_confidence * 100)
      calibrated_recommendation_confidence := pyRound (recommendation_confidence * 100)
      age_uncertain := age_uncertain
      adjusted_age := adjusted_age
      calibration_version := calibration_version
      calibration_strategy := calibration_strategy
      calibration_fallback_reason := fallback_reason
      raw_age_confidence :=
        match input_data.raw_age_confidence with
        | some q => if q = 0 then none else some (pyTrunc q)
        | none => none
      raw_recommendation_confidence :=
        match input_data.raw_recommendation_confidence with
        | some q => if q = 0 then none else some (pyTrunc q)
        | none => none }

-- ===========================================================================
-- calibration_jobs.py : curve building
-- ===========================================================================

/-- One joined `scans × scan_labels` row consumed by the curve builder. -/
structure LabelRow where
  raw_confidence : Option ℤ := none
  confidence : Option ℤ := none
  region_key : Option String := none
  age_correct : Option Bool := none
  recommendation_correct : Option Bool := none
deriving DecidableEq, Repr

/-- Aggregation key `(curve_type, region_key)`. -/
abbrev AggKey := String × Option String

/-- Ten zeroed `(samples, correct)` bin counters. -/
def emptyBinCounts : List (ℕ × ℕ) := List.replicate 10 (0, 0)

/-- Increment one bin's `(samples, correct)` counters. -/
def bumpBin (bc : List (ℕ × ℕ)) (i : ℕ) (correct : Bool) : List (ℕ × ℕ) :=
  let cur := bc.getD i (0, 0)
  bc.set i (cur.1 + 1, cur.2 + if correct then 1 else 0)

/-- `aggregates[key]` update: initialise ten empty bins on first sight of the
key (Python dict keeps insertion order; keys stay unique). -/
def aggInsert (d : List (AggKey × List (ℕ × ℕ))) (k : AggKey) (i : ℕ) (correct : Bool) :
    List (AggKey × List (ℕ × ℕ)) :=
  if d.any (·.1 = k) then
    d.map (fun p => if p.1 = k then (p.1, bumpBin p.2 i correct) else p)
  else d ++ [(k, bumpBin emptyBinCounts i correct)]

/-- Per-row aggregation step of `build_curves_from_labels`. -/
def processLabelRow (agg : List (AggKey × List (ℕ × ℕ))) (row : LabelRow) :
    List (AggKey × List (ℕ × ℕ)) :=
  let raw_conf := falsyOrI row.raw_confidence (falsyOrI row.confidence 50)
  let bin_idx := compute_bin_index raw_conf
  let region := row.region_key
  let agg :=
    match row.age_correct with
    | some ac =>
      let agg := aggInsert agg ("global_age", none) bin_idx ac
      if pyTruthyStr region then aggInsert agg ("region_age", region) bin_idx ac else agg
    | none => agg
  match row.recommendation_correct with
  | some rc =>
    let agg := aggInsert agg ("global_recommendation", none) bin_idx rc
    if pyTruthyStr region then aggInsert agg ("region_recommendation", region) bin_idx rc
    else agg
  | none => agg

/-- `build_curves_from_labels` (pure aggregation core): the list of curve
rows the job would insert.  UUIDs and timestamps are omitted (`id := ""`);
curves are always built `is_active := false`. -/
def build_curves_from_labels (rows : List LabelRow) (version : String) : List CurveRow :=
  let aggregates := rows.foldl processLabelRow []
  aggregates.map (fun p =>
    let curve_type := p.1.1
    let region_key := p.1.2
    let bin_data := p.2
    let total_samples := (bin_data.map (·.1)).sum
    let min_samples :=
      if pyTruthyStr region_key then REGION_CURVE_MIN_SAMPLES else GLOBAL_CURVE_MIN_SAMPLES
    let bins := CONFIDENCE_BINS.enum.map (fun q =>
      let i : ℕ := q.1
      let min_conf : ℕ := q.2.1
      let max_conf : ℕ := q.2.2
      let data := bin_data.getD i (0, 0)
      let samples : ℕ := data.1
      let correct : ℕ := data.2
      let calibrated : ℚ :=
        if BIN_MIN_SAMPLES ≤ samples then (correct : ℚ) / (samples : ℚ)
        else ((min_conf : ℚ) + (max_conf : ℚ)) / 200
      { min_confidence := min_conf
        max_confidence := max_conf
        sample_count := samples
        correct_count := correct
        calibrated_confidence := round4 calibrated : CalibrationBin })
    { id := ""
      calibration_version := version
      curve_type := curve_type
      region_key := region_key
      bins := bins
      sample_count := (total_samples : ℤ)
      min_samples_required := (min_samples : ℤ)
      is_active := false : CurveRow })

-- ===========================================================================
-- calibration_jobs.py : curve activation
-- ===========================================================================

/-- Structured result dictionary of `activate_curve`. -/
structure ActivateResult where
  success : Bool
  error : Option String := none
  sample_count : Option ℤ := none
  min_samples_required : Option ℤ := none
  curve_id : Option String := none
  curve_type : Option String := none
  region_key : Option (Option String) := none
  calibration_version : Option String := none
deriving DecidableEq, Repr

/-- `activate_curve`: not-found and immature failures are structured and
write nothing; success deactivates every same-scope sibling (via the SQL
`region_key == value` / `region_key IS NULL` branch picked by Python
truthiness) and then activates the target. -/
def activate_curve (store : List CurveRow) (curve_id : String)
    (deactivate_others : Bool) : ActivateResult × List CurveRow :=
  match store.find? (fun c => c.id = curve_id) with
  | none => ({ success := false, error := some "Curve not found" }, store)
  | some curve =>
    if curve.sample_count < curve.min_samples_required then
      ({ success := false
         error := some ("Curve not mature: " ++ toString curve.sample_count ++ " < " ++
           toString curve.min_samples_required ++ " samples")
         sample_count := some curve.sample_count
         min_samples_required := some curve.min_samples_required }, store)
    else
      let store1 :=
        if deactivate_others then
          if pyTruthyStr curve.region_key then
            store.map (fun c =>
              if c.curve_type = curve.curve_type ∧ c.region_key = curve.region_key ∧
                  c.id ≠ curve_id then
                { c with is_active := false } else c)
          else
            store.map (fun c =>
              if c.curve_type = curve.curve_type ∧ c.region_key = none ∧
                  c.id ≠ curve_id then
                { c with is_active := false } else c)
        else store
      let store2 := store1.map (fun c =>
        if c.id = curve_id then { c with is_active := true } else c)
      ({ success := true
         curve_id := some curve_id
         curve_type := some curve.curve_type
         region_key := some curve.region_key
         calibration_version := some curve.calibration_version }, store2)

/-- `load_active_curves`: dictionary `(curve_type, region_key) → curve` over
the active rows (later rows overwrite earlier ones, as in a Python dict). -/
def load_active_curves (rows : List CurveRow) : List (CurveKey × CurveRow) :=
  (rows.filter (·.is_active)).foldl (fun d row =>
    let k : CurveKey := (row.curve_type, row.region_key)
    if d.any (·.1 = k) then d.map (fun p => if p.1 = k then (k, row) else p)
    else d ++ [(k, row)]) []

-- ===========================================================================
-- calibration_jobs.py : recalibration job
-- ===========================================================================

/-- A stored scan row (only the columns the recalibration job reads or
writes). -/
structure Scan where
  id : ℕ
  created_at : ℤ := 0
  region_key : Option String := none
  raw_confidence : Option ℤ := none
  confidence : Option ℤ := none
  deer_age : Option ℚ := none
  age_confidence : Option ℤ := none
  recommendation_confidence : Option ℤ := none
  age_uncertain : Option Bool := none
  calibration_version : Option String := none
  calibration_strategy : Option String := none
  calibration_fallback_reason : Option String := none
deriving DecidableEq, Repr

/-- `RecalibrationResult` (duration omitted). -/
structure RecalibrationResult where
  scans_processed : ℕ := 0
  scans_updated : ℕ := 0
  scans_skipped : ℕ := 0
  errors : List String := []
  dry_run : Bool := false
  curve_version : String := "active"
deriving DecidableEq, Repr

/-- The values `recalibrate_scans` computes for one scan before the
idempotence check. -/
structure ScanVals where
  new_deer_age : Option ℚ
  age_pct : ℤ
  rec_pct : ℤ
  age_uncertain : Bool
  final_version : Option String
  age_strategy : String
  age_fallback_reason : Option String
  rec_strategy : String
  rec_fallback_reason : Option String
deriving DecidableEq, Repr

/-- The values computed by the `recalibrate_scans` loop body that depend on
the scan only through its effective raw confidence and region string
(everything except `new_deer_age`). -/
structure ScanCalc where
  age_pct : ℤ
  rec_pct : ℤ
  age_uncertain : Bool
  final_version : Option String
  age_strategy : String
  age_fallback_reason : Option String
  rec_strategy : String
  rec_fallback_reason : Option String
deriving DecidableEq, Repr

/-- Core recomputation of the `recalibrate_scans` loop body: curve fallback
chain, curve application, flat heuristic fallbacks, uncertainty gate and
rounding, as a function of the scan's effective raw confidence and region. -/
def recalScanCalc (curves : List (CurveKey × CurveRow)) (curve_version : Option String)
    (raw_conf : ℤ) (scan_region : String) : ScanCalc :=
  let ageChoice : Option CurveRow × String × Option String :=
    match dictFind curves ("region_age", some scan_region) with
    | some c => (some c, "curve_region", none)
    | none =>
      match dictFind curves ("global_age", none) with
      | some c => (some c, "curve_global", some "region_curve_missing")
      | none => (none, "heuristic_region", none)
  let age_curve := ageChoice.1
  let age_strategy := ageChoice.2.1
  let age_fb := ageChoice.2.2
  let recChoice : Option CurveRow × String × Option String :=
    match dictFind curves ("region_recommendation", some scan_region) with
    | some c => (some c, "curve_region", none)
    | none =>
      match dictFind curves ("global_recommendation", none) with
      | some c => (some c, "curve_global", some "region_curve_missing")
      | none => (none, "heuristic_region", none)
  let rec_curve := recChoice.1
  let rec_fb := recChoice.2.2
  let ageApplied : ℚ × Option String :=
    match age_curve with
    | some c =>
      let applied := apply_curve_calibration raw_conf c.bins
      (applied.1, if applied.2 then some "bin_under_sampled" else age_fb)
    | none => ((raw_conf : ℚ) / 100 * 0.75, some "no_curve_available")
  let cal_age_conf := ageApplied.1
  let age_fallback_reason := ageApplied.2
  let recApplied : ℚ × Option String :=
    match rec_curve with
    | some c =>
      let applied := apply_curve_calibration raw_conf c.bins
      (applied.1, if applied.2 then some "bin_under_sampled" else rec_fb)
    | none => ((raw_conf : ℚ) / 100 * 0.95, some "no_curve_available")
  let cal_rec_conf := recApplied.1
  let region_enum := regionKeyOfString scan_region
  let threshold := REGION_UNCERTAINTY_THRESHOLDS region_enum
  let age_uncertain : Bool := decide (cal_age_conf < threshold)
  let cal_age_conf_pct := pyRound (cal_age_conf * 100)
  let cal_rec_conf_pct := pyRound (cal_rec_conf * 100)
  let final_version :=
    match age_curve with
    | some c => some c.calibration_version
    | none => curve_version
  { age_pct := cal_age_conf_pct
    rec_pct := cal_rec_conf_pct
    age_uncertain := age_uncertain
    final_version := final_version
    age_strategy := age_strategy
    age_fallback_reason := age_fallback_reason
    rec_strategy := recChoice.2.1
    rec_fallback_reason := recApplied.2 }

/-- Per-scan recomputation of `recalibrate_scans` (loop body up to the
idempotence check): `recalScanCalc` on the scan's effective raw confidence
and region, plus the `deer_age` nulling under the uncertainty gate. -/
def recalScanVals (curves : List (CurveKey × CurveRow)) (curve_version : Option String)
    (scan : Scan) : ScanVals :=
  let raw_conf := falsyOrI scan.raw_confidence (falsyOrI scan.confidence 50)
  let scan_region := falsyOrS scan.region_key "unknown"
  let c := recalScanCalc curves curve_version raw_conf scan_region
  { new_deer_age := if c.age_uncertain then none else scan.deer_age
    age_pct := c.age_pct
    rec_pct := c.rec_pct
    age_uncertain := c.age_uncertain
    final_version := c.final_version
    age_strategy := c.age_strategy
    age_fallback_reason := c.age_fallback_reason
    rec_strategy := c.rec_strategy
    rec_fallback_reason := c.rec_fallback_reason }

/-- The idempotence check: skip the write when the stored calibrated age
confidence, recommendation confidence and uncertain flag are unchanged. -/
def scanSkip (v : ScanVals) (scan : Scan) : Bool :=
  decide (scan.age_confidence = some v.age_pct ∧
    scan.recommendation_confidence = some v.rec_pct ∧
    scan.age_uncertain = some v.age_uncertain)

/-- The `UPDATE ... SET` of `recalibrate_scans` applied to one row. -/
def applyVals (v : ScanVals) (s : Scan) : Scan :=
  { s with
    deer_age := v.new_deer_age
    age_confidence := some v.age_pct
    recommendation_confidence := some v.rec_pct
    confidence := some v.rec_pct
    age_uncertain := some v.age_uncertain
    calibration_version := v.final_version
    calibration_strategy := some v.age_strategy
    calibration_fallback_reason := v.age_fallback_reason }

/-- `UPDATE scans WHERE id = scan_id`. -/
def updateById (store : List Scan) (scan_id : ℕ) (v : ScanVals) : List Scan :=
  store.map (fun s => if s.id = scan_id then applyVals v s else s)

/-- The optional `since` / `region` filters of the scan query. -/
def scanPred (since : Option ℤ) (region : Option String) (s : Scan) : Bool :=
  (match since with
   | none => true
   | some t => decide (t ≤ s.created_at)) &&
  (match region with
   | none => true
   | some r => decide (s.region_key = some r))

/-- Fold over one fetched batch: count, recompute, skip-or-update. -/
def processBatch (curves : List (CurveKey × CurveRow)) (curve_version : Option String)
    (dry_run : Bool) (batch : List Scan) (store : List Scan)
    (res : RecalibrationResult) : RecalibrationResult × List Scan :=
  batch.foldl (fun acc scan =>
    let res := acc.1
    let store := acc.2
    let res := { res with scans_processed := res.scans_processed + 1 }
    let v := recalScanVals curves curve_version scan
    if scanSkip v scan then ({ res with scans_skipped := res.scans_skipped + 1 }, store)
    else
      let store := if dry_run then store else updateById store scan.id v
      ({ res with scans_updated := res.scans_updated + 1 }, store)) (res, store)

/-- The offset-paginated `while True` loop of `recalibrate_scans`.  The
source loop increases `offset` by the batch size each turn and halts once
`offset > 1_000_000`, so it runs at most 10,001 turns; the structural `fuel`
argument (called with `RECAL_FUEL = 10002`) therefore never reaches 0 from
`recalibrate_scans` and the fuel-exhaustion branch is unreachable. -/
def recalLoop (curves : List (CurveKey × CurveRow)) (curve_version : Option String)
    (since : Option ℤ) (region : Option String) (dry_run : Bool) :
    ℕ → List Scan → ℕ → RecalibrationResult → RecalibrationResult × List Scan
  | 0, store, _, res => (res, store)
  | fuel + 1, store, offset, res =>
    let batch := ((store.filter (scanPred since region)).drop offset).take
      RECALIBRATION_BATCH_SIZE
    if batch = [] then (res, store)
    else
      let step := processBatch curves curve_version dry_run batch store res
      let offset2 := offset + RECALIBRATION_BATCH_SIZE
      if 1000000 < offset2 then
        ({ step.1 with errors := step.1.errors ++ ["Safety limit reached (1M scans)"] },
         step.2)
      else recalLoop curves curve_version since region dry_run fuel step.2 offset2 step.1

def RECAL_FUEL : ℕ := 10002

/-- `recalibrate_scans`: load active curves, then page through the scans in
batches of `RECALIBRATION_BATCH_SIZE`, recomputing and conditionally
rewriting each row.  Returns the result object and the final scan store. -/
def recalibrate_scans (store : List Scan) (curve_rows : List CurveRow)
    (curve_version : Option String) (since : Option ℤ) (region : Option String)
    (dry_run : Bool) : RecalibrationResult × List Scan :=
  let res0 : RecalibrationResult :=
    { dry_run := dry_run, curve_version := falsyOrS curve_version "active" }
  let curves := load_active_curves curve_rows
  if curves = [] then ({ res0 with errors := ["No active curves found"] }, store)
  else recalLoop curves curve_version since region dry_run RECAL_FUEL store 0 res0

-- ===========================================================================
-- adaptive_calibration.py : trust weighting and weighted accuracy
-- ===========================================================================

def DRIFT_WARNING_THRESHOLD : ℚ := 0.08
def DRIFT_CRITICAL_THRESHOLD : ℚ := 0.12
def DRIFT_MIN_SAMPLES : ℕ := 50

/-- `DEFAULT_TRUST_WEIGHTS` dictionary. -/
def DEFAULT_TRUST_WEIGHTS (s : String) : Option ℚ :=
  if s = "expert" then some 0.9
  else if s = "admin" then some 0.8
  else if s = "trusted_user" then some 0.7
  else if s = "self_reported" then some 0.6
  else if s = "unknown" then some 0.5
  else none

/-- `get_trust_weight`: case-insensitive lookup, unknown/missing source falls
back to the lowest-information weight 0.5. -/
def get_trust_weight : Option String → ℚ
  | none => 0.5
  | some s => if s = "" then 0.5 else (DEFAULT_TRUST_WEIGHTS (strLower s)).getD 0.5

/-- A label record as consumed by `compute_weighted_accuracy`
(`trust_weight = none` models a missing/NULL explicit weight, which makes
the code fall back to `get_trust_weight`). -/
structure Label where
  trust_source : Option String := none
  trust_weight : Option ℚ := none
  age_correct : Option Bool := none
  recommendation_correct : Option Bool := none
deriving DecidableEq, Repr

/-- The `correct_field` argument of `compute_weighted_accuracy`. -/
inductive CorrectField where
  | age_correct
  | recommendation_correct
deriving DecidableEq, Repr

def Label.getCorrect (l : Label) : CorrectField → Option Bool
  | .age_correct => l.age_correct
  | .recommendation_correct => l.recommendation_correct

/-- Loop body of `compute_weighted_accuracy`: accumulate
`(total_weight, weighted_correct)`, skipping labels whose target field is
null. -/
def cwaStep (correct_field : CorrectField) (acc : ℚ × ℚ) (label : Label) : ℚ × ℚ :=
  match label.getCorrect correct_field with
  | none => acc
  | some correct =>
    let trust_weight := label.trust_weight.getD (get_trust_weight label.trust_source)
    (acc.1 + trust_weight, if correct then acc.2 + trust_weight else acc.2)

/-- `compute_weighted_accuracy`: trust-weighted accuracy over the labels
whose target field is non-null, together with `len(labels)`. -/
def compute_weighted_accuracy (labels : List Label) (correct_field : CorrectField) :
    ℚ × ℕ :=
  if labels = [] then (0, 0)
  else
    let tw := labels.foldl (cwaStep correct_field) (0, 0)
    if tw.1 = 0 then (0, 0)
    else (tw.2 / tw.1, labels.length)

-- ===========================================================================
-- adaptive_calibration.py : drift detection
-- ===========================================================================

/-- `classify_drift_severity`. -/
def classify_drift_severity (drift_percentage : ℚ) : String :=
  let abs_drift := |drift_percentage|
  if DRIFT_CRITICAL_THRESHOLD ≤ abs_drift then "critical"
  else if DRIFT_WARNING_THRESHOLD ≤ abs_drift then "warning"
  else "none"

/-- A drift event as produced by `detect_calibration_drift` (UUID and
timestamp omitted). -/
structure DriftEvent where
  region_key : String
  model_version : String := "gpt-4o"
  calibration_version : String
  confidence_type : String
  expected_accuracy : ℚ
  observed_accuracy : ℚ
  drift_percentage : ℚ
  severity : String
  sample_size : ℕ
  time_window_days : ℕ
  season_bucket : Option String
deriving DecidableEq, Repr

/-- Mean of the bins' `calibrated_confidence` used for curve-implied
expected accuracy. -/
def binAverage (bins : List CalibrationBin) : ℚ :=
  (bins.map (fun b => b.calibrated_confidence)).sum / (bins.length : ℚ)

/-- The expected age accuracy computed inline in `detect_calibration_drift`:
baseline 0.70, replaced by the bin-average of the first applicable curve
(`region_age` before `global_age`) whose bin list is non-empty. -/
def expected_age_accuracy (curve_lookup : List (CurveKey × List CalibrationBin))
    (region : String) : ℚ :=
  let fromGlobal : ℚ :=
    match dictFind curve_lookup ("global_age", none) with
    | some bins => if bins ≠ [] then binAverage bins else 0.70
    | none => 0.70
  match dictFind curve_lookup ("region_age", some region) with
  | some bins => if bins ≠ [] then binAverage bins else fromGlobal
  | none => fromGlobal

/-- Age-axis part of the per-group body of `detect_calibration_drift`:
weighted accuracy over the age-labelled subset, curve-implied (or baseline)
expected accuracy, severity classification, and event emission when the
severity is not `none`. -/
def driftAgeEvents (curve_lookup : List (CurveKey × List CalibrationBin))
    (region cal_version : String) (season : Option String) (time_window_days : ℕ)
    (labels : List Label) : List DriftEvent :=
  let age_labels := labels.filter (fun l => l.age_correct ≠ none)
  if age_labels ≠ [] then
    let wa := compute_weighted_accuracy age_labels .age_correct
    let observed_age_accuracy := wa.1
    let age_count := wa.2
    let expected_age := expected_age_accuracy curve_lookup region
    let drift := observed_age_accuracy - expected_age
    let severity := classify_drift_severity drift
    if severity ≠ "none" then
      [{ region_key := region
         calibration_version := cal_version
         confidence_type := "age"
         expected_accuracy := round4 expected_age
         observed_accuracy := round4 observed_age_accuracy
         drift_percentage := round4 drift
         severity := severity
         sample_size := age_count
         time_window_days := time_window_days
         season_bucket := season }]
    else []
  else []

/-- Recommendation-axis part of the per-group body of
`detect_calibration_drift`: the expected accuracy is the literal baseline
0.85 — the source never consults a curve on this axis. -/
def driftRecEvents (region cal_version : String) (season : Option String)
    (time_window_days : ℕ) (labels : List Label) : List DriftEvent :=
  let rec_labels := labels.filter (fun l => l.recommendation_correct ≠ none)
  if rec_labels ≠ [] then
    let wa := compute_weighted_accuracy rec_labels .recommendation_correct
    let observed_rec_accuracy := wa.1
    let rec_count := wa.2
    let expected_rec_accuracy : ℚ := 0.85
    let drift := observed_rec_accuracy - expected_rec_accuracy
    let severity := classify_drift_severity drift
    if severity ≠ "none" then
      [{ region_key := region
         calibration_version := cal_version
         confidence_type := "recommendation"
         expected_accuracy := round4 expected_rec_accuracy
         observed_accuracy := round4 observed_rec_accuracy
         drift_percentage := round4 drift
         severity := severity
         sample_size := rec_count
         time_window_days := time_window_days
         season_bucket := season }]
    else []
  else []

/-- Per-group body of `detect_calibration_drift` (the part after grouping
and curve loading).  Groups under `DRIFT_MIN_SAMPLES` are skipped
entirely. -/
def processDriftGroup (curve_lookup : List (CurveKey × List CalibrationBin))
    (region cal_version : String) (season : Option String) (time_window_days : ℕ)
    (labels : List Label) : List DriftEvent :=
  if labels.length < DRIFT_MIN_SAMPLES then []
  else
    driftAgeEvents curve_lookup region cal_version season time_window_days labels ++
      driftRecEvents region cal_version season time_window_days labels

/-- Specification-side expected accuracy, written from the spec's words
(§4.8): "expected accuracy = active curve's bin-average, else static
baseline (0.70 age / 0.85 recommendation)", with the region-scoped curve
preferred over the global one and a curve applicable when it is active with
a non-empty bin list.  Compared against the implementation above. -/
inductive DriftAxis where
  | age
  | recommendation
deriving DecidableEq, Repr

def spec_expected_accuracy (curve_lookup : List (CurveKey × List CalibrationBin))
    (axis : DriftAxis) (region : String) : ℚ :=
  let keys : List CurveKey :=
    match axis with
    | .age => [("region_age", some region), ("global_age", none)]
    | .recommendation => [("region_recommendation", some region), ("global_recommendation", none)]
  let baseline : ℚ :=
    match axis with
    | .age => 0.70
    | .recommendation => 0.85
  let applicable := keys.findSome? (fun k =>
    match dictFind curve_lookup k with
    | some bins => if bins ≠ [] then some bins else none
    | none => none)
  match applicable with
  | some bins => binAverage bins
  | none => baseline

-- ===========================================================================
-- adaptive_calibration.py : recommendation engine
-- ===========================================================================

/-- A drift-event row as read back by `generate_model_recommendations`. -/
structure DriftEventRow where
  region_key : Option String := none
  severity : String := "none"
  drift_percentage : ℚ := 0
deriving DecidableEq, Repr

/-- An advisory recommendation (UUID and timestamp omitted;
`supporting_metrics` keeps the numeric entries of the Python dict). -/
structure ModelRecommendation where
  region_key : Option String
  model_version : String := "gpt-4o"
  confidence_type : String
  recommendation_type : String
  supporting_metrics : List (String × ℚ)
  severity : String
deriving DecidableEq, Repr

/-- Distinct values in order of first occurrence (Python dict key order for
the `region_drift` grouping). -/
def firstOccurrences (l : List (Option String)) : List (Option String) :=
  l.foldl (fun acc a => if a ∈ acc then acc else acc ++ [a]) []

/-- Global rules of `generate_model_recommendations`: ≥3 criticals →
INVESTIGATE_DATA (severity critical), else ≥1 critical or ≥5 warnings →
REBUILD_CALIBRATION (severity warning). -/
def globalDriftRecs (drift_events : List DriftEventRow) : List ModelRecommendation :=
  let global_drift := drift_events
  let critical_count := (global_drift.filter (fun e => e.severity = "critical")).length
  let warning_count := (global_drift.filter (fun e => e.severity = "warning")).length
  if 3 ≤ critical_count then
        [{ region_key := none
           confidence_type := "both"
           recommendation_type := "investigate_data"
           supporting_metrics :=
             [("critical_drift_events", (critical_count : ℚ)),
              ("warning_drift_events", (warning_count : ℚ)),
              ("total_events", (global_drift.length : ℚ)),
              ("time_period_days", 30)]
           severity := "critical" }]
      else if 1 ≤ critical_count ∨ 5 ≤ warning_count then
        [{ region_key := none
           confidence_type := "both"
           recommendation_type := "rebuild_calibration"
           supporting_metrics :=
             [("critical_drift_events", (critical_count : ℚ)),
              ("warning_drift_events", (warning_count : ℚ)),
              ("average_drift",
               (global_drift.map (fun e => |e.drift_percentage|)).sum /
                 (global_drift.length : ℚ))]
           severity := "warning" }]
      else []

/-- Per-region rules of `generate_model_recommendations` (the `region_drift`
dict iteration): skip the "unknown" region, then ≥1 regional critical or ≥3
regional warnings → REGION_CURVE_UPDATE. -/
def regionDriftRecs (drift_events : List DriftEventRow) : List ModelRecommendation :=
  (firstOccurrences (drift_events.map (fun e => e.region_key))).filterMap (fun region =>
    if region = some "unknown" then none
    else
      let events := drift_events.filter (fun e => e.region_key = region)
      let region_critical := (events.filter (fun e => e.severity = "critical")).length
      let region_warning := (events.filter (fun e => e.severity = "warning")).length
      if 1 ≤ region_critical ∨ 3 ≤ region_warning then
        let avg_drift :=
          (events.map (fun e => e.drift_percentage)).sum / (events.length : ℚ)
        some
          { region_key := region
            confidence_type := "age"
            recommendation_type := "region_curve_update"
            supporting_metrics :=
              [("critical_events", (region_critical : ℚ)),
               ("warning_events", (region_warning : ℚ)),
               ("average_drift_percentage", round4 avg_drift),
               ("sample_events", (events.length : ℚ))]
            severity := if 1 ≤ region_critical then "critical" else "warning" }
      else none)

/-- `generate_model_recommendations` (pure core over the trailing-30-day
events): early return on no events, else global rules followed by
per-region rules. -/
def generate_model_recommendations (drift_events : List DriftEventRow) :
    List ModelRecommendation :=
  if drift_events = [] then []
  else globalDriftRecs drift_events ++ regionDriftRecs drift_events

-- ===========================================================================
-- Concrete fixtures used by witnesses and counterexamples
-- ===========================================================================

/-- Ten bins covering 0–100 with zero samples (midpoint fallback values). -/
def tenEmptyBins : List CalibrationBin :=
  CONFIDENCE_BINS.enum.map (fun q =>
    { min_confidence := q.2.1, max_confidence := q.2.2, sample_count := 0,
      correct_count := 0, calibrated_confidence := ((q.2.1 : ℚ) + q.2.2) / 200 })

/-- An active, mature `region_age` curve for the `unknown` region whose bins
are all under-sampled. -/
def curveU : CurveRow :=
  { id := "cU", calibration_version := "v2-curve-T", curve_type := "region_age",
    region_key := some "unknown", bins := tenEmptyBins, sample_count := 300,
    min_samples_required := 200, is_active := true }

/-- An active, mature `global_age` curve whose bins are all under-sampled. -/
def curveGA : CurveRow :=
  { id := "cG", calibration_version := "vG", curve_type := "global_age",
    region_key := none, bins := tenEmptyBins, sample_count := 600,
    min_samples_required := 500, is_active := true }

/-- Flags with curve-based calibration enabled. -/
def liveFlags : CalibrationFlags :=
  { CALIBRATION_ENABLED := true, CALIBRATION_REGION_ENABLED := true,
    CALIBRATION_CURVES_ENABLED := true }

/-- A live-scoring input: raw confidence 50, full feature data, no locale. -/
def liveIn : RegionCalibrationInput :=
  { raw_confidence := 50, predicted_age := some 3.5, recommendation := some "PASS",
    deer_sex := some "buck", antler_points := some 8, antler_points_left := some 4,
    antler_points_right := some 4 }

/-- The stored scan matching `liveIn`: raw confidence 50, region `unknown`. -/
def scanB : Scan :=
  { id := 1, region_key := some "unknown", raw_confidence := some 50,
    confidence := some 50, deer_age := some 3.5, age_confidence := some 0,
    recommendation_confidence := some 0, age_uncertain := some false }

/-- A scan with a NULL `raw_confidence` (falls back to the legacy
`confidence` column). -/
def scanN : Scan :=
  { id := 1, region_key := some "unknown", raw_confidence := none,
    confidence := some 100, deer_age := none, age_confidence := some 0,
    recommendation_confidence := some 0, age_uncertain := some true }

/-- Thirty labelled rows in bin 5 (raw 50), exactly one of them correct. -/
def rows30 : List LabelRow :=
  { raw_confidence := some 50, age_correct := some true : LabelRow } ::
    List.replicate 29 { raw_confidence := some 50, age_correct := some false : LabelRow }

/-- Mature recommendation-curve bins whose average calibrated confidence
is 0.5. -/
def recBins : List CalibrationBin :=
  CONFIDENCE_BINS.enum.map (fun q =>
    { min_confidence := q.2.1, max_confidence := q.2.2, sample_count := 30,
      correct_count := 15, calibrated_confidence := 0.5 })

/-- Fifty labels with a non-null, correct recommendation field. -/
def labels50 : List Label :=
  List.replicate 50 { recommendation_correct := some true : Label }

/-- Inactive mature curve scoped to the empty-string region. -/
def cA : CurveRow :=
  { id := "A", calibration_version := "v", curve_type := "region_age",
    region_key := some "", bins := [], sample_count := 300,
    min_samples_required := 200, is_active := false }

/-- Active mature curve sharing `cA`'s `(curve_type, region_key)` scope. -/
def cB : CurveRow :=
  { id := "B", calibration_version := "v", curve_type := "region_age",
    region_key := some "", bins := [], sample_count := 300,
    min_samples_required := 200, is_active := true }

/-- An immature curve (100 of 200 required samples). -/
def cImm : CurveRow := { cA with sample_count := 100 }

/-- A critical drift event. -/
def evCrit : DriftEventRow :=
  { region_key := some "midwest", severity := "critical", drift_percentage := 0.15 }

/-- A warning drift event. -/
def evWarn : DriftEventRow :=
  { region_key := some "midwest", severity := "warning", drift_percentage := 0.09 }

/-- Three critical plus two warning drift events. -/
def events5 : List DriftEventRow :=
  List.replicate 3 evCrit ++ List.replicate 2 evWarn

-- ===========================================================================
-- C6 : age-axis heuristic calibration is bounded and monotone
-- ===========================================================================

/-- The multiplicative coefficient applied to `raw_confidence` by the age
heuristic, collecting the base scale, the three penalties and the region
multiplier. -/
def ageCoeff (predicted_age : Option ℚ) (deer_sex : Option String)
    (antler_points antler_points_left antler_points_right : Option ℤ)
    (region_key : RegionKey) : ℚ :=
  (1 / 100) * AGE_CONFIDENCE_BASE_SCALE *
    (if predicted_age = none ∨ predicted_age = some 0 then 1 - NULL_AGE_PENALTY else 1) *
    (if ¬(antler_points ≠ none ∧ antler_points_left ≠ none ∧
        antler_points_right ≠ none) then 1 - LOW_ANTLER_INFO_PENALTY else 1) *
    (if deer_sex = none ∨ (deer_sex.map strLower) = some "unknown" then
      1 - UNKNOWN_SEX_PENALTY else 1) *
    REGION_DIFFICULTY_MULTIPLIERS region_key

theorem compute_age_confidence_eq (r : ℚ) (pa : Option ℚ) (sex : Option String)
    (ap al ar : Option ℤ) (rk : RegionKey) :
    compute_age_confidence_with_region r pa sex ap al ar rk =
      max 0 (min (r * ageCoeff pa sex ap al ar rk) MAX_AGE_CONFIDENCE) := by
  simp only [compute_age_confidence_with_region, ageCoeff]
  split_ifs <;>
    (refine congrArg (max 0) ?_; refine congrArg (fun x => min x MAX_AGE_CONFIDENCE) ?_;
     ring)

theorem ageCoeff_nonneg (pa : Option ℚ) (sex : Option String) (ap al ar : Option ℤ)
    (rk : RegionKey) : 0 ≤ ageCoeff pa sex ap al ar rk := by
  have hm : 0 ≤ REGION_DIFFICULTY_MULTIPLIERS rk := by
    cases rk <;> norm_num [REGION_DIFFICULTY_MULTIPLIERS]
  unfold ageCoeff
  split_ifs <;>
    exact mul_nonneg
      (by norm_num [AGE_CONFIDENCE_BASE_SCALE, NULL_AGE_PENALTY,
        LOW_ANTLER_INFO_PENALTY, UNKNOWN_SEX_PENALTY]) hm

/-- C6: for every raw confidence in [0,100], every combination of the
completeness inputs and every region key, the heuristic age-axis calibrated
confidence lies in [0, MAX_AGE_CONFIDENCE], and holding the other inputs
fixed it is non-decreasing in the raw confidence. -/
theorem C6_age_confidence_bounded_monotone (r1 r2 : ℚ) (pa : Option ℚ)
    (sex : Option String) (ap al ar : Option ℤ) (rk : RegionKey)
    (h0 : 0 ≤ r1) (h12 : r1 ≤ r2) (h100 : r2 ≤ 100) :
    (0 ≤ compute_age_confidence_with_region r1 pa sex ap al ar rk ∧
      compute_age_confidence_with_region r1 pa sex ap al ar rk ≤ MAX_AGE_CONFIDENCE) ∧
    (0 ≤ compute_age_confidence_with_region r2 pa sex ap al ar rk ∧
      compute_age_confidence_with_region r2 pa sex ap al ar rk ≤ MAX_AGE_CONFIDENCE) ∧
    compute_age_confidence_with_region r1 pa sex ap al ar rk ≤
      compute_age_confidence_with_region r2 pa sex ap al ar rk := by
  rw [compute_age_confidence_eq, compute_age_confidence_eq]
  refine ⟨⟨le_max_left _ _, ?_⟩, ⟨le_max_left _ _, ?_⟩, ?_⟩
  · exact max_le (by norm_num [MAX_AGE_CONFIDENCE]) (min_le_right _ _)
  · exact max_le (by norm_num [MAX_AGE_CONFIDENCE]) (min_le_right _ _)
  · exact max_le_max le_rfl
      (min_le_min (mul_le_mul_of_nonneg_right h12 (ageCoeff_nonneg pa sex ap al ar rk))
        le_rfl)

/-- Witness for C6 at raw confidences 40 ≤ 90 in the hardest region. -/
theorem C6_age_confidence_witness :
    ((0:ℚ) ≤ 40 ∧ (40:ℚ) ≤ 90 ∧ (90:ℚ) ≤ 100) ∧
    0 ≤ compute_age_confidence_with_region 40 none none none none none .SOUTH_TEXAS ∧
    compute_age_confidence_with_region 90 none none none none none .SOUTH_TEXAS ≤
      MAX_AGE_CONFIDENCE ∧
    compute_age_confidence_with_region 40 none none none none none .SOUTH_TEXAS ≤
      compute_age_confidence_with_region 90 none none none none none .SOUTH_TEXAS := by
  have h := C6_age_confidence_bounded_monotone 40 90 none none none none none
    .SOUTH_TEXAS (by norm_num) (by norm_num) (by norm_num)
  exact ⟨⟨by norm_num, by norm_num, by norm_num⟩, h.1.1, h.2.1.2, h.2.2⟩

-- ===========================================================================
-- C8 : activation failures are structured and write nothing
-- ===========================================================================

/-- C8: activating an unknown curve id returns a structured not-found
failure, and activating a known but immature curve returns a structured
immature failure carrying the sample count and required minimum; in both
cases the curve store is unchanged (and, the model being total, no
exception is raised). -/
theorem C8_activate_failures_structured (store : List CurveRow) (cid : String) :
    (store.find? (fun x => x.id = cid) = none →
      activate_curve store cid true =
        ({ success := false, error := some "Curve not found" }, store)) ∧
    (∀ c, store.find? (fun x => x.id = cid) = some c →
      c.sample_count < c.min_samples_required →
      (activate_curve store cid true).1.success = false ∧
      (activate_curve store cid true).1.error =
        some ("Curve not mature: " ++ toString c.sample_count ++ " < " ++
          toString c.min_samples_required ++ " samples") ∧
      (activate_curve store cid true).1.sample_count = some c.sample_count ∧
      (activate_curve store cid true).1.min_samples_required =
        some c.min_samples_required ∧
      (activate_curve store cid true).2 = store) := by
  constructor
  · intro h
    simp [activate_curve, h]
  · intro c hc hlt
    simp [activate_curve, hc, hlt]

/-- Witness for C8: unknown id `"Z"` and immature curve `cImm` both fail
structurally and leave the one-curve store untouched. -/
theorem C8_activate_failures_witness :
    ((activate_curve [cImm] "Z" true).1.success = false ∧
      (activate_curve [cImm] "Z" true).2 = [cImm]) ∧
    (activate_curve [cImm] "A" true).1.success = false ∧
    (activate_curve [cImm] "A" true).1.sample_count = some 100 ∧
    (activate_curve [cImm] "A" true).1.min_samples_required = some 200 ∧
    (activate_curve [cImm] "A" true).2 = [cImm] := by
  have h1 := (C8_activate_failures_structured [cImm] "Z").1 (by decide)
  have h2 := (C8_activate_failures_structured [cImm] "A").2 cImm (by decide) (by decide)
  exact ⟨⟨by rw [h1], by rw [h1]⟩, h2.1, h2.2.2.1, h2.2.2.2.1, h2.2.2.2.2⟩

-- ===========================================================================
-- C3 : activation leaves exactly the target active in its scope
-- ===========================================================================

/-- C3 (amended): provided the activated curve's `region_key` is not the
empty string, a successful `activate_curve` with `deactivate_others = true`
leaves exactly the target active within its `(curve_type, region_key)`
scope: a curve of that scope is active afterwards iff its id is the
target's. -/
theorem C3_activation_exactly_target (store : List CurveRow) (cid : String)
    (c : CurveRow)
    (hfind : store.find? (fun x => x.id = cid) = some c)
    (hmature : c.min_samples_required ≤ c.sample_count)
    (hreg : c.region_key ≠ some "")
    (hsingle : ∀ x ∈ store, ∀ y ∈ store, x.is_active = true → y.is_active = true →
      x.curve_type = y.curve_type → x.region_key = y.region_key → x = y) :
    ∀ x ∈ (activate_curve store cid true).2,
      x.curve_type = c.curve_type → x.region_key = c.region_key →
      (x.is_active = true ↔ x.id = cid) := by
  intro x hx hct hrk
  have hnotlt : ¬c.sample_count < c.min_samples_required := not_lt.mpr hmature
  simp only [activate_curve, hfind, hnotlt, if_false] at hx
  have hbranch : (if pyTruthyStr c.region_key = true then
      store.map (fun z =>
        if z.curve_type = c.curve_type ∧ z.region_key = c.region_key ∧ z.id ≠ cid then
          { z with is_active := false } else z)
    else
      store.map (fun z =>
        if z.curve_type = c.curve_type ∧ z.region_key = none ∧ z.id ≠ cid then
          { z with is_active := false } else z)) =
      store.map (fun z =>
        if z.curve_type = c.curve_type ∧ z.region_key = c.region_key ∧ z.id ≠ cid then
          { z with is_active := false } else z) := by
    rcases hcr : c.region_key with _ | r
    · simp [pyTruthyStr]
    · have hr : r ≠ "" := by
        intro h
        exact hreg (by rw [hcr, h])
      simp [pyTruthyStr, hr]
  rw [hbranch] at hx
  obtain ⟨y, hy, rfl⟩ := List.mem_map.1 hx
  obtain ⟨z, hz, rfl⟩ := List.mem_map.1 hy
  by_cases hid : z.id = cid
  · have h1 : ¬(z.curve_type = c.curve_type ∧ z.region_key = c.region_key ∧ z.id ≠ cid) :=
      fun h => h.2.2 hid
    rw [if_neg h1, if_pos hid]
    simp [hid]
  · by_cases hP : z.curve_type = c.curve_type ∧ z.region_key = c.region_key ∧ z.id ≠ cid
    · rw [if_pos hP] at hct hrk ⊢
      rw [if_neg (show ¬(({ z with is_active := false } : CurveRow).id = cid) from hid)]
        at hct hrk ⊢
      simp [hid]
    · rw [if_neg hP] at hct hrk ⊢
      rw [if_neg hid] at hct hrk ⊢
      exact absurd ⟨hct, hrk, hid⟩ hP

/-- Inactive mature curve scoped to `(region_age, midwest)`. -/
def cC : CurveRow :=
  { id := "C", calibration_version := "v", curve_type := "region_age",
    region_key := some "midwest", bins := [], sample_count := 300,
    min_samples_required := 200, is_active := false }

/-- Active mature curve sharing `cC`'s scope. -/
def cD : CurveRow :=
  { id := "D", calibration_version := "v", curve_type := "region_age",
    region_key := some "midwest", bins := [], sample_count := 300,
    min_samples_required := 200, is_active := true }

/-- Counterexample to C3 as stated: with curves scoped to the empty-string
region (a legal store state), Python's falsy test on `region_key` routes
deactivation to the `IS NULL` branch, so after successfully activating `A`
its previously-active same-scope sibling `B` is still active — the active
set of the scope is {A, B}, not {A}. -/
theorem C3_activation_counterexample :
    (activate_curve [cA, cB] "A" true).1.success = true ∧
    (∀ x ∈ [cA, cB], ∀ y ∈ [cA, cB], x.is_active = true → y.is_active = true →
      x.curve_type = y.curve_type → x.region_key = y.region_key → x = y) ∧
    ∃ x ∈ (activate_curve [cA, cB] "A" true).2,
      x.curve_type = cA.curve_type ∧ x.region_key = cA.region_key ∧
      x.is_active = true ∧ x.id ≠ "A" := by
  decide

/-- Witness for C3 on a well-formed store: activating `C` deactivates its
previously-active sibling `D` and leaves exactly `C` active in the scope. -/
theorem C3_activation_witness :
    ((activate_curve [cC, cD] "C" true).2.getD 0 cC).is_active = true ∧
    ((activate_curve [cC, cD] "C" true).2.getD 1 cC).is_active = false := by
  have h := C3_activation_exactly_target [cC, cD] "C" cC (by decide) (by decide)
    (by decide) (by decide)
  constructor
  · exact (h (((activate_curve [cC, cD] "C" true).2.getD 0 cC)) (by decide) (by decide)
      (by decide)).mpr (by decide)
  · have h1 := h (((activate_curve [cC, cD] "C" true).2.getD 1 cC)) (by decide) (by decide)
      (by decide)
    rcases Bool.eq_false_or_eq_true
        (((activate_curve [cC, cD] "C" true).2.getD 1 cC).is_active) with hb | hb
    · exact absurd (h1.mp hb) (by decide)
    · exact hb

-- ===========================================================================
-- C10 : global recommendation rules
-- ===========================================================================

/-- A recommendation is "global" when its `region_key` is null; this tests
for a global recommendation of the given type. -/
def isGlobalRec (ty : String) (r : ModelRecommendation) : Bool :=
  decide (r.region_key = none ∧ r.recommendation_type = ty)

theorem regionDriftRecs_all_type (events : List DriftEventRow) :
    ∀ r ∈ regionDriftRecs events, r.recommendation_type = "region_curve_update" := by
  intro r hr
  simp only [regionDriftRecs, List.mem_filterMap] at hr
  obtain ⟨region, _, hsome⟩ := hr
  by_cases hu : region = some "unknown"
  · rw [if_pos hu] at hsome
    exact absurd hsome (by simp)
  · rw [if_neg hu] at hsome
    split_ifs at hsome
    all_goals
      first
        | (cases Option.some.inj hsome; rfl)
        | exact absurd hsome (by simp)

theorem regionDriftRecs_countP_zero (events : List DriftEventRow) (ty : String)
    (hty : ty ≠ "region_curve_update") :
    (regionDriftRecs events).countP (isGlobalRec ty) = 0 := by
  rw [List.countP_eq_zero]
  intro r hr
  simp only [isGlobalRec, decide_eq_true_eq, not_and]
  intro _ h2
  rw [regionDriftRecs_all_type events r hr] at h2
  exact hty h2.symm

/-- C10: over the trailing-30-day drift events, the global rule emits
exactly one global INVESTIGATE_DATA recommendation (severity critical) when
there are at least 3 critical events, and otherwise exactly one global
REBUILD_CALIBRATION recommendation (severity warning) when there is at
least 1 critical or at least 5 warning events; the two cases are mutually
exclusive. -/
theorem C10_global_recommendation_rules (events : List DriftEventRow) :
    (3 ≤ (events.filter (fun e => e.severity = "critical")).length →
      (generate_model_recommendations events).countP (isGlobalRec "investigate_data") = 1 ∧
      (generate_model_recommendations events).countP (isGlobalRec "rebuild_calibration") = 0 ∧
      ∀ r ∈ generate_model_recommendations events,
        isGlobalRec "investigate_data" r = true → r.severity = "critical") ∧
    ((events.filter (fun e => e.severity = "critical")).length < 3 →
      (1 ≤ (events.filter (fun e => e.severity = "critical")).length ∨
        5 ≤ (events.filter (fun e => e.severity = "warning")).length) →
      (generate_model_recommendations events).countP (isGlobalRec "rebuild_calibration") = 1 ∧
      (generate_model_recommendations events).countP (isGlobalRec "investigate_data") = 0 ∧
      ∀ r ∈ generate_model_recommendations events,
        isGlobalRec "rebuild_calibration" r = true → r.severity = "warning") := by
  by_cases hemp : events = []
  · subst hemp
    refine ⟨fun h3 => ?_, fun hlt hor => ?_⟩
    · simp at h3
    · rcases hor with h | h <;> simp at h
  · have hgen : generate_model_recommendations events =
        globalDriftRecs events ++ regionDriftRecs events := by
      rw [generate_model_recommendations, if_neg hemp]
    refine ⟨fun h3 => ?_, fun hlt hor => ?_⟩
    · have hglob : globalDriftRecs events =
          [{ region_key := none
             confidence_type := "both"
             recommendation_type := "investigate_data"
             supporting_metrics :=
               [("critical_drift_events",
                 ((events.filter (fun e => e.severity = "critical")).length : ℚ)),
                ("warning_drift_events",
                 ((events.filter (fun e => e.severity = "warning")).length : ℚ)),
                ("total_events", (events.length : ℚ)),
                ("time_period_days", 30)]
             severity := "critical" }] := by
        rw [globalDriftRecs, if_pos h3]
      rw [hgen, hglob]
      refine ⟨?_, ?_, ?_⟩
      · rw [List.countP_append, regionDriftRecs_countP_zero events _ (by decide)]
        simp [isGlobalRec]
      · rw [List.countP_append, regionDriftRecs_countP_zero events _ (by decide)]
        simp [isGlobalRec]
      · intro r hr hp
        rcases List.mem_append.1 hr with hr | hr
        · rcases List.mem_singleton.1 hr with rfl
          rfl
        · exfalso
          simp only [isGlobalRec, decide_eq_true_eq] at hp
          rw [regionDriftRecs_all_type events r hr] at hp
          exact absurd hp.2 (by decide)
    · have hglob : globalDriftRecs events =
          [{ region_key := none
             confidence_type := "both"
             recommendation_type := "rebuild_calibration"
             supporting_metrics :=
               [("critical_drift_events",
                 ((events.filter (fun e => e.severity = "critical")).length : ℚ)),
                ("warning_drift_events",
                 ((events.filter (fun e => e.severity = "warning")).length : ℚ)),
                ("average_drift",
                 (events.map (fun e => |e.drift_percentage|)).sum / (events.length : ℚ))]
             severity := "warning" }] := by
        rw [globalDriftRecs, if_neg (by omega), if_pos hor]
      rw [hgen, hglob]
      refine ⟨?_, ?_, ?_⟩
      · rw [List.countP_append, regionDriftRecs_countP_zero events _ (by decide)]
        simp [isGlobalRec]
      · rw [List.countP_append, regionDriftRecs_countP_zero events _ (by decide)]
        simp [isGlobalRec]
      · intro r hr hp
        rcases List.mem_append.1 hr with hr | hr
        · rcases List.mem_singleton.1 hr with rfl
          rfl
        · exfalso
          simp only [isGlobalRec, decide_eq_true_eq] at hp
          rw [regionDriftRecs_all_type events r hr] at hp
          exact absurd hp.2 (by decide)

/-- Witness for C10: 3 critical plus 2 warning events yield exactly one
global INVESTIGATE_DATA recommendation and no REBUILD_CALIBRATION. -/
theorem C10_global_recommendation_witness :
    (generate_model_recommendations events5).countP (isGlobalRec "investigate_data") = 1 ∧
    (generate_model_recommendations events5).countP (isGlobalRec "rebuild_calibration") = 0 := by
  have h := (C10_global_recommendation_rules events5).1 (by decide)
  exact ⟨h.1, h.2.1⟩

-- ===========================================================================
-- C1 : live vs batch curve application and pipeline divergence
-- ===========================================================================

theorem binIdx_agree (n : ℤ) (h0 : 0 ≤ n) (h1 : n ≤ 100) :
    min ⌊(n : ℚ) / 10⌋ 9 = ((compute_bin_index n : ℕ) : ℤ) := by
  have hf : ⌊(n : ℚ) / 10⌋ = n / 10 := by
    rw [show ((10 : ℚ)) = ((10 : ℕ) : ℚ) by norm_num]
    exact Rat.floor_intCast_div_natCast n 10
  rw [hf]
  unfold compute_bin_index
  omega

/-- C1 (amended): the pure bin-selection logic agrees between the live
`_apply_curve` and the batch `apply_curve_calibration` — for every integer
raw confidence in [0,100] and every bin list they return the same
calibrated value.  (The surrounding pipelines still diverge; see the
counterexample.) -/
theorem C1_apply_curve_value_agreement (n : ℤ) (h0 : 0 ≤ n) (h1 : n ≤ 100)
    (bins : List CalibrationBin) :
    apply_curve_live (n : ℚ) bins = (apply_curve_calibration n bins).1 := by
  by_cases hb : bins = []
  · simp [apply_curve_live, apply_curve_calibration, hb]
  · have hidx := binIdx_agree n h0 h1
    have hpy : pyListGet bins ((compute_bin_index n : ℕ) : ℤ) =
        bins.get? (compute_bin_index n) := by
      unfold pyListGet
      rw [if_pos (Int.natCast_nonneg _)]
      rw [Int.toNat_natCast]
    rw [List.get?_eq_getElem?] at hpy
    rcases hget : bins[compute_bin_index n]? with _ | bin
    · simp [apply_curve_live, apply_curve_calibration, hb, hidx, hpy, hget,
        List.get?_eq_getElem?]
    · by_cases hs : BIN_MIN_SAMPLES ≤ bin.sample_count
      · simp [apply_curve_live, apply_curve_calibration, hb, hidx, hpy, hget, hs,
          List.get?_eq_getElem?]
        try split_ifs <;> rfl
      · simp [apply_curve_live, apply_curve_calibration, hb, hidx, hpy, hget, hs,
          List.get?_eq_getElem?]
        try split_ifs <;> rfl

/-- Witness for the C1 value agreement at raw confidence 50 over a
ten-bin under-sampled curve. -/
theorem C1_apply_curve_agreement_witness :
    ((0 : ℤ) ≤ 50 ∧ (50 : ℤ) ≤ 100) ∧
    apply_curve_live ((50 : ℤ) : ℚ) tenEmptyBins =
      (apply_curve_calibration 50 tenEmptyBins).1 :=
  ⟨⟨by decide, by decide⟩, C1_apply_curve_value_agreement 50 (by decide) (by decide)
    tenEmptyBins⟩

set_option maxRecDepth 400000 in
/-- Counterexample to C1 as stated: identical inputs (raw confidence 50,
region `unknown`, the same single active region-age curve with an
under-sampled bin) give identical confidences and uncertainty flags, but
the batch job records fallback reason `bin_under_sampled` where the live
orchestrator records none — the outputs are not identical. -/
theorem C1_pipeline_divergence_counterexample :
    (calibrate_with_region liveFlags liveIn
        (some [(("region_age", some "unknown"), curveU)])).calibrated_age_confidence
      = 50 ∧
    (calibrate_with_region liveFlags liveIn
        (some [(("region_age", some "unknown"), curveU)])).calibrated_recommendation_confidence
      = 48 ∧
    (calibrate_with_region liveFlags liveIn
        (some [(("region_age", some "unknown"), curveU)])).age_uncertain = true ∧
    (calibrate_with_region liveFlags liveIn
        (some [(("region_age", some "unknown"), curveU)])).calibration_fallback_reason
      = none ∧
    ((recalibrate_scans [scanB] [curveU] none none none false).2.map
      (fun s => (s.age_confidence, s.recommendation_confidence, s.age_uncertain,
        s.calibration_fallback_reason))) =
      [(some 50, some 48, some true, some "bin_under_sampled")] ∧
    some "bin_under_sampled" ≠ (none : Option String) := by
  with_unfolding_all decide

-- ===========================================================================
-- C4 : builder bin confidences
-- ===========================================================================

def dummyBin : CalibrationBin :=
  { min_confidence := 0, max_confidence := 0, sample_count := 0, correct_count := 0,
    calibrated_confidence := 0 }

def dummyCurve : CurveRow :=
  { id := "", calibration_version := "", curve_type := "", region_key := none,
    bins := [], sample_count := 0, min_samples_required := 0, is_active := false }

/-- C4 (amended): every bin the curve builder produces carries
`round(correct/samples, 4)` when its sample count reaches
`BIN_MIN_SAMPLES`, and exactly the bin midpoint divided by 100 otherwise
(the midpoints are exact at four decimals, so rounding is the identity
there). -/
theorem builder_bin_calibrated (rows : List LabelRow) (version : String) :
    ∀ c ∈ build_curves_from_labels rows version, ∀ b ∈ c.bins,
      (BIN_MIN_SAMPLES ≤ b.sample_count →
        b.calibrated_confidence = round4 ((b.correct_count : ℚ) / (b.sample_count : ℚ))) ∧
      (b.sample_count < BIN_MIN_SAMPLES →
        b.calibrated_confidence =
          ((b.min_confidence : ℚ) + (b.max_confidence : ℚ)) / 200) := by
  intro c hc b hb
  simp only [build_curves_from_labels, List.mem_map] at hc
  obtain ⟨p, hp, rfl⟩ := hc
  simp only [List.mem_map] at hb
  obtain ⟨q, hq, rfl⟩ := hb
  constructor
  · intro hge
    simp only at hge ⊢
    rw [if_pos hge]
  · intro hlt
    simp only at hlt ⊢
    rw [if_neg (not_le.mpr hlt)]
    have h2 : q.2 ∈ CONFIDENCE_BINS := by
      have : q.2 ∈ CONFIDENCE_BINS.enum.map Prod.snd := List.mem_map.mpr ⟨q, hq, rfl⟩
      rwa [List.enum_map_snd] at this
    simp only [CONFIDENCE_BINS, List.mem_cons, List.not_mem_nil, or_false] at h2
    rcases h2 with h | h | h | h | h | h | h | h | h | h <;>
      rw [h] <;> with_unfolding_all decide

/-- C4 (amended): every bin the curve builder produces carries
`round(correct/samples, 4)` when its sample count reaches
`BIN_MIN_SAMPLES`, and exactly the bin midpoint divided by 100 otherwise
(the midpoints are exact at four decimals, so rounding is the identity
there). -/
theorem C4_builder_bin_confidence (rows : List LabelRow) (version : String) :
    ∀ c ∈ build_curves_from_labels rows version, ∀ b ∈ c.bins,
      (BIN_MIN_SAMPLES ≤ b.sample_count →
        b.calibrated_confidence = round4 ((b.correct_count : ℚ) / (b.sample_count : ℚ))) ∧
      (b.sample_count < BIN_MIN_SAMPLES →
        b.calibrated_confidence =
          ((b.min_confidence : ℚ) + (b.max_confidence : ℚ)) / 200) := by
  intro c hc b hb
  exact builder_bin_calibrated rows version c hc b hb

set_option maxRecDepth 400000 in
/-- Counterexample to C4 as stated: thirty labels in bin 5 with one correct
give `sample_count = 30 ≥ 20` but `calibrated_confidence = 0.0333`
(`round(1/30, 4)`), which is not `correct_count/sample_count = 1/30`
exactly. -/
theorem C4_builder_round_counterexample :
    (((build_curves_from_labels rows30 "v").getD 0 dummyCurve).bins.getD 5
        dummyBin).sample_count = 30 ∧
    (((build_curves_from_labels rows30 "v").getD 0 dummyCurve).bins.getD 5
        dummyBin).correct_count = 1 ∧
    (((build_curves_from_labels rows30 "v").getD 0 dummyCurve).bins.getD 5
        dummyBin).calibrated_confidence = 333 / 10000 ∧
    (333 / 10000 : ℚ) ≠ 1 / 30 := by
  have hs : (((build_curves_from_labels rows30 "v").getD 0 dummyCurve).bins.getD 5
      dummyBin).sample_count = 30 := by with_unfolding_all decide
  have hcc : (((build_curves_from_labels rows30 "v").getD 0 dummyCurve).bins.getD 5
      dummyBin).correct_count = 1 := by with_unfolding_all decide
  have hlen : 0 < (build_curves_from_labels rows30 "v").length := by
    with_unfolding_all decide
  have hblen : 5 < ((build_curves_from_labels rows30 "v").getD 0 dummyCurve).bins.length := by
    with_unfolding_all decide
  have hcm : (build_curves_from_labels rows30 "v").getD 0 dummyCurve ∈
      build_curves_from_labels rows30 "v" := by
    rw [List.getD_eq_getElem _ _ hlen]
    exact List.getElem_mem _
  have hbm : ((build_curves_from_labels rows30 "v").getD 0 dummyCurve).bins.getD 5
      dummyBin ∈ ((build_curves_from_labels rows30 "v").getD 0 dummyCurve).bins := by
    rw [List.getD_eq_getElem _ _ hblen]
    exact List.getElem_mem _
  have hcal := (builder_bin_calibrated rows30 "v" _ hcm _ hbm).1
    (by rw [hs]; with_unfolding_all decide)
  rw [hs, hcc] at hcal
  refine ⟨hs, hcc, ?_, by norm_num⟩
  rw [hcal]
  norm_num [round4, pyRound]

set_option maxRecDepth 400000 in
/-- Witness for C4 on the bin built from `rows30`: the stored value is the
four-decimal rounding of `correct/samples`, and an under-sampled bin (bin
0 of the same curve) carries exactly its midpoint over 100. -/
theorem C4_builder_bin_confidence_witness :
    (((build_curves_from_labels rows30 "v").getD 0 dummyCurve).bins.getD 5
        dummyBin).calibrated_confidence =
      round4 (((((build_curves_from_labels rows30 "v").getD 0 dummyCurve).bins.getD 5
          dummyBin).correct_count : ℚ) /
        ((((build_curves_from_labels rows30 "v").getD 0 dummyCurve).bins.getD 5
          dummyBin).sample_count : ℚ)) ∧
    (((build_curves_from_labels rows30 "v").getD 0 dummyCurve).bins.getD 0
        dummyBin).calibrated_confidence =
      (((((build_curves_from_labels rows30 "v").getD 0 dummyCurve).bins.getD 0
          dummyBin).min_confidence : ℚ) +
        ((((build_curves_from_labels rows30 "v").getD 0 dummyCurve).bins.getD 0
          dummyBin).max_confidence : ℚ)) / 200 := by
  have hs : (((build_curves_from_labels rows30 "v").getD 0 dummyCurve).bins.getD 5
      dummyBin).sample_count = 30 := by with_unfolding_all decide
  have h0s : (((build_curves_from_labels rows30 "v").getD 0 dummyCurve).bins.getD 0
      dummyBin).sample_count = 0 := by with_unfolding_all decide
  have hlen : 0 < (build_curves_from_labels rows30 "v").length := by
    with_unfolding_all decide
  have hblen : 5 < ((build_curves_from_labels rows30 "v").getD 0 dummyCurve).bins.length := by
    with_unfolding_all decide
  have hblen0 : 0 < ((build_curves_from_labels rows30 "v").getD 0 dummyCurve).bins.length := by
    with_unfolding_all decide
  have hcm : (build_curves_from_labels rows30 "v").getD 0 dummyCurve ∈
      build_curves_from_labels rows30 "v" := by
    rw [List.getD_eq_getElem _ _ hlen]
    exact List.getElem_mem _
  have hbm : ((build_curves_from_labels rows30 "v").getD 0 dummyCurve).bins.getD 5
      dummyBin ∈ ((build_curves_from_labels rows30 "v").getD 0 dummyCurve).bins := by
    rw [List.getD_eq_getElem _ _ hblen]
    exact List.getElem_mem _
  have hbm0 : ((build_curves_from_labels rows30 "v").getD 0 dummyCurve).bins.getD 0
      dummyBin ∈ ((build_curves_from_labels rows30 "v").getD 0 dummyCurve).bins := by
    rw [List.getD_eq_getElem _ _ hblen0]
    exact List.getElem_mem _
  have h5 := C4_builder_bin_confidence rows30 "v"
    ((build_curves_from_labels rows30 "v").getD 0 dummyCurve) hcm
    (((build_curves_from_labels rows30 "v").getD 0 dummyCurve).bins.getD 5 dummyBin) hbm
  have h0 := C4_builder_bin_confidence rows30 "v"
    ((build_curves_from_labels rows30 "v").getD 0 dummyCurve) hcm
    (((build_curves_from_labels rows30 "v").getD 0 dummyCurve).bins.getD 0 dummyBin) hbm0
  exact ⟨h5.1 (by rw [hs]; with_unfolding_all decide),
    h0.2 (by rw [h0s]; with_unfolding_all decide)⟩

-- ===========================================================================
-- C5 : drift-detection expected accuracy
-- ===========================================================================

theorem expected_age_eq_spec (lookup : List (CurveKey × List CalibrationBin))
    (region : String) :
    expected_age_accuracy lookup region = spec_expected_accuracy lookup .age region := by
  unfold expected_age_accuracy spec_expected_accuracy
  rcases h1 : dictFind lookup ("region_age", some region) with _ | bins1 <;>
    rcases h2 : dictFind lookup ("global_age", (none : Option String)) with _ | bins2 <;>
    simp only [List.findSome?_cons, List.findSome?_nil, h1, h2] <;>
    · split_ifs <;> simp_all

/-- C5 (amended): in the drift detector, the age axis uses the active
curve's bin-average (region-scoped before global, a curve being applicable
when its bin list is non-empty) and otherwise the 0.70 baseline — exactly
the spec-side definition — while the recommendation axis always uses the
static 0.85 baseline, never consulting a curve. -/
theorem C5_drift_expected_accuracy (lookup : List (CurveKey × List CalibrationBin))
    (region cal_version : String) (season : Option String) (window : ℕ)
    (labels : List Label) :
    expected_age_accuracy lookup region = spec_expected_accuracy lookup .age region ∧
    ∀ ev ∈ processDriftGroup lookup region cal_version season window labels,
      (ev.confidence_type = "age" →
        ev.expected_accuracy = round4 (spec_expected_accuracy lookup .age region)) ∧
      (ev.confidence_type = "recommendation" →
        ev.expected_accuracy = round4 (0.85 : ℚ)) := by
  refine ⟨expected_age_eq_spec lookup region, ?_⟩
  intro ev hev
  unfold processDriftGroup at hev
  split_ifs at hev with hmin
  · exact absurd hev (List.not_mem_nil _)
  · rcases List.mem_append.1 hev with h | h
    · simp only [driftAgeEvents] at h
      split_ifs at h
      · rcases List.mem_singleton.1 h with rfl
        refine ⟨fun _ => ?_, fun hc => absurd hc (by simp)⟩
        simp only
        rw [expected_age_eq_spec]
      · exact absurd h (List.not_mem_nil _)
      · exact absurd h (List.not_mem_nil _)
    · simp only [driftRecEvents] at h
      split_ifs at h
      · rcases List.mem_singleton.1 h with rfl
        exact ⟨fun hc => absurd hc (by simp), fun _ => rfl⟩
      · exact absurd h (List.not_mem_nil _)
      · exact absurd h (List.not_mem_nil _)

def dummyEvent : DriftEvent :=
  { region_key := "", calibration_version := "", confidence_type := "",
    expected_accuracy := 0, observed_accuracy := 0, drift_percentage := 0,
    severity := "", sample_size := 0, time_window_days := 0, season_bucket := none }

set_option maxRecDepth 400000 in
/-- Counterexample to C5 as stated: with an active, applicable global
recommendation curve whose bin-average is 0.5, a 50-label group emits one
recommendation drift event whose expected accuracy is the static 0.85, not
the curve's bin-average 0.5 — the recommendation axis never consults
curves. -/
theorem C5_recommendation_axis_counterexample :
    (processDriftGroup [(("global_recommendation", none), recBins)] "midwest" "v1" none 30
        labels50).map (fun e => (e.confidence_type, e.expected_accuracy)) =
      [("recommendation", 17/20)] ∧
    spec_expected_accuracy [(("global_recommendation", none), recBins)] .recommendation
      "midwest" = 1/2 ∧
    round4 ((1 : ℚ)/2) = 1/2 ∧
    (17/20 : ℚ) ≠ round4 ((1 : ℚ)/2) := by
  with_unfolding_all decide

set_option maxRecDepth 400000 in
/-- Witness for C5 at the concrete 50-label group: the emitted
recommendation event's expected accuracy is `round(0.85, 4)`. -/
theorem C5_drift_expected_accuracy_witness :
    ((processDriftGroup [(("global_recommendation", none), recBins)] "midwest" "v1" none 30
        labels50).getD 0 dummyEvent).expected_accuracy = round4 (0.85 : ℚ) := by
  have h := (C5_drift_expected_accuracy [(("global_recommendation", none), recBins)]
    "midwest" "v1" none 30 labels50).2
    ((processDriftGroup [(("global_recommendation", none), recBins)] "midwest" "v1" none 30
      labels50).getD 0 dummyEvent)
    (by with_unfolding_all decide)
  exact h.2 (by with_unfolding_all decide)

-- ===========================================================================
-- C7 : weighted accuracy
-- ===========================================================================

theorem get_trust_weight_pos (src : Option String) : 0 < get_trust_weight src := by
  rcases src with _ | s
  · norm_num [get_trust_weight]
  · simp only [get_trust_weight, DEFAULT_TRUST_WEIGHTS]
    split_ifs <;> norm_num

theorem cwa_fold_const (field : CorrectField) :
    ∀ (labels : List Label) (a b : ℚ),
      (∀ l ∈ labels, l.getCorrect field = none) →
      labels.foldl (cwaStep field) (a, b) = (a, b) := by
  intro labels
  induction labels with
  | nil => intro a b _; rfl
  | cons l t ih =>
    intro a b hall
    rw [List.foldl_cons]
    have hstep : cwaStep field (a, b) l = (a, b) := by
      simp [cwaStep, hall l (List.mem_cons_self _ _)]
    rw [hstep]
    exact ih a b (fun x hx => hall x (List.mem_cons_of_mem _ hx))

theorem cwa_fold_spec (field : CorrectField) :
    ∀ (labels : List Label) (a b : ℚ),
      (∀ l ∈ labels, ∀ w, l.trust_weight = some w → 0 < w) →
      0 ≤ b → b ≤ a →
      0 ≤ (labels.foldl (cwaStep field) (a, b)).2 ∧
      (labels.foldl (cwaStep field) (a, b)).2 ≤ (labels.foldl (cwaStep field) (a, b)).1 ∧
      a ≤ (labels.foldl (cwaStep field) (a, b)).1 ∧
      ((labels.foldl (cwaStep field) (a, b)).1 = a →
        ∀ l ∈ labels, l.getCorrect field = none) := by
  intro labels
  induction labels with
  | nil =>
    intro a b _ hb hba
    exact ⟨hb, hba, le_rfl, fun _ x hx => absurd hx (List.not_mem_nil _)⟩
  | cons l t ih =>
    intro a b hw hb hba
    rw [List.foldl_cons]
    rcases hf : l.getCorrect field with _ | c
    · have hstep : cwaStep field (a, b) l = (a, b) := by simp [cwaStep, hf]
      rw [hstep]
      have h := ih a b (fun x hx => hw x (List.mem_cons_of_mem _ hx)) hb hba
      refine ⟨h.1, h.2.1, h.2.2.1, fun he x hx => ?_⟩
      rcases List.mem_cons.1 hx with rfl | hx
      · exact hf
      · exact h.2.2.2 he x hx
    · have hwpos : 0 < l.trust_weight.getD (get_trust_weight l.trust_source) := by
        rcases hl : l.trust_weight with _ | w
        · simpa [hl] using get_trust_weight_pos l.trust_source
        · simpa [hl] using hw l (List.mem_cons_self _ _) w hl
      have hstep : cwaStep field (a, b) l =
          (a + l.trust_weight.getD (get_trust_weight l.trust_source),
           if c then b + l.trust_weight.getD (get_trust_weight l.trust_source) else b) := by
        simp [cwaStep, hf]
      rw [hstep]
      have hb' : 0 ≤ (if c then b + l.trust_weight.getD (get_trust_weight l.trust_source)
          else b) := by
        split_ifs
        · linarith
        · exact hb
      have hba' : (if c then b + l.trust_weight.getD (get_trust_weight l.trust_source)
          else b) ≤ a + l.trust_weight.getD (get_trust_weight l.trust_source) := by
        split_ifs
        · linarith
        · linarith
      have h := ih (a + l.trust_weight.getD (get_trust_weight l.trust_source)) _
        (fun x hx => hw x (List.mem_cons_of_mem _ hx)) hb' hba'
      refine ⟨h.1, h.2.1, by linarith [h.2.2.1], fun he _ _ => ?_⟩
      exfalso
      have h1 := h.2.2.1
      rw [he] at h1
      linarith

/-- C7 (amended): provided every explicit per-label trust weight is
positive (the built-in trust table is), `compute_weighted_accuracy` returns
`(0.0, 0)` iff no label has a non-null target field, and in every other
case the returned accuracy lies in [0, 1]. -/
theorem C7_weighted_accuracy_bounds (labels : List Label) (field : CorrectField)
    (hw : ∀ l ∈ labels, ∀ w, l.trust_weight = some w → 0 < w) :
    (compute_weighted_accuracy labels field = (0, 0) ↔
      ∀ l ∈ labels, l.getCorrect field = none) ∧
    ((∃ l ∈ labels, l.getCorrect field ≠ none) →
      0 ≤ (compute_weighted_accuracy labels field).1 ∧
      (compute_weighted_accuracy labels field).1 ≤ 1) := by
  by_cases hemp : labels = []
  · subst hemp
    constructor
    · simp [compute_weighted_accuracy]
    · rintro ⟨l, hl, -⟩
      exact absurd hl (List.not_mem_nil _)
  · have hfold := cwa_fold_spec field labels 0 0 hw le_rfl le_rfl
    unfold compute_weighted_accuracy
    rw [if_neg hemp]
    by_cases hz : (labels.foldl (cwaStep field) (0, 0)).1 = 0
    · rw [if_pos hz]
      refine ⟨⟨fun _ => hfold.2.2.2 hz, fun _ => rfl⟩, fun _ => ⟨le_rfl, by norm_num⟩⟩
    · rw [if_neg hz]
      have hpos : 0 < (labels.foldl (cwaStep field) (0, 0)).1 :=
        lt_of_le_of_ne hfold.2.2.1 (Ne.symm hz)
      constructor
      · constructor
        · intro heq
          exfalso
          have h2 := congrArg Prod.snd heq
          simp only at h2
          exact hemp (List.length_eq_zero.1 h2)
        · intro hall
          exact absurd (congrArg Prod.fst (cwa_fold_const field labels 0 0 hall)) hz
      · intro _
        refine ⟨div_nonneg hfold.1 (le_of_lt hpos), ?_⟩
        rw [div_le_one hpos]
        exact hfold.2.1

/-- A label with an explicit zero trust weight and a non-null field. -/
def labelZeroW : Label := { trust_weight := some 0, age_correct := some true }

/-- Two labels: one expert-labelled correct age, one with a null field. -/
def labelsW : List Label :=
  [{ trust_source := some "expert", age_correct := some true }, { age_correct := none }]

/-- Counterexample to C7 as stated: a single label with non-null
`age_correct` but explicit `trust_weight = 0` makes the function return
`(0.0, 0)` even though a label with a non-null target field exists, so the
unconditional "iff" fails. -/
theorem C7_zero_weight_counterexample :
    compute_weighted_accuracy [labelZeroW] .age_correct = (0, 0) ∧
    ¬(∀ l ∈ [labelZeroW], l.getCorrect .age_correct = none) := by
  with_unfolding_all decide

/-- Witness for C7 on a two-label list with one qualifying label. -/
theorem C7_weighted_accuracy_witness :
    compute_weighted_accuracy labelsW .age_correct ≠ (0, 0) ∧
    0 ≤ (compute_weighted_accuracy labelsW .age_correct).1 ∧
    (compute_weighted_accuracy labelsW .age_correct).1 ≤ 1 := by
  have h := C7_weighted_accuracy_bounds labelsW .age_correct (by with_unfolding_all decide)
  have hb := h.2 ⟨labelsW.getD 0 {}, by with_unfolding_all decide,
    by with_unfolding_all decide⟩
  refine ⟨fun heq => ?_, hb.1, hb.2⟩
  exact absurd (h.1.1 heq (labelsW.getD 0 {}) (by with_unfolding_all decide))
    (by with_unfolding_all decide)

-- ===========================================================================
-- C9 : recalibration processing cap
-- ===========================================================================

theorem applyVals_id (v : ScanVals) (s : Scan) : (applyVals v s).id = s.id := rfl

theorem scanPred_applyVals (since : Option ℤ) (region : Option String) (v : ScanVals)
    (s : Scan) : scanPred since region (applyVals v s) = scanPred since region s := rfl

theorem updateById_filter_length (since : Option ℤ) (region : Option String)
    (store : List Scan) (i : ℕ) (v : ScanVals) :
    ((updateById store i v).filter (scanPred since region)).length =
      (store.filter (scanPred since region)).length := by
  unfold updateById
  rw [List.filter_map]
  rw [List.length_map]
  congr 1
  apply List.filter_congr
  intro s _
  simp only [Function.comp_apply]
  split_ifs
  · exact scanPred_applyVals since region v s
  · rfl

theorem processBatch_stats (curves : List (CurveKey × CurveRow)) (cv : Option String)
    (dry : Bool) (since : Option ℤ) (region : Option String) :
    ∀ (batch : List Scan) (store : List Scan) (res : RecalibrationResult),
      (processBatch curves cv dry batch store res).1.scans_processed =
        res.scans_processed + batch.length ∧
      (processBatch curves cv dry batch store res).1.errors = res.errors ∧
      ((processBatch curves cv dry batch store res).2.filter
        (scanPred since region)).length =
        (store.filter (scanPred since region)).length := by
  intro batch
  induction batch with
  | nil => intro store res; exact ⟨rfl, rfl, rfl⟩
  | cons s t ih =>
    intro store res
    by_cases hskip : scanSkip (recalScanVals curves cv s) s = true
    · have hstep : processBatch curves cv dry (s :: t) store res =
          processBatch curves cv dry t store
            { res with
                scans_processed := res.scans_processed + 1,
                scans_skipped := res.scans_skipped + 1 } := by
        simp [processBatch, hskip]
      rw [hstep]
      have h := ih store { res with
          scans_processed := res.scans_processed + 1,
          scans_skipped := res.scans_skipped + 1 }
      refine ⟨?_, h.2.1, h.2.2⟩
      rw [h.1]
      show res.scans_processed + 1 + t.length = res.scans_processed + (s :: t).length
      simp only [List.length_cons]
      omega
    · have hstep : processBatch curves cv dry (s :: t) store res =
          processBatch curves cv dry t (if dry then store else updateById store s.id
            (recalScanVals curves cv s))
            { res with
                scans_processed := res.scans_processed + 1,
                scans_updated := res.scans_updated + 1 } := by
        simp [processBatch, hskip]
      rw [hstep]
      have h := ih (if dry then store else updateById store s.id (recalScanVals curves cv s))
        { res with
            scans_processed := res.scans_processed + 1,
            scans_updated := res.scans_updated + 1 }
      refine ⟨?_, h.2.1, ?_⟩
      · rw [h.1]
        show res.scans_processed + 1 + t.length = res.scans_processed + (s :: t).length
        simp only [List.length_cons]
        omega
      · rw [h.2.2]
        split_ifs
        · rfl
        · exact updateById_filter_length since region store s.id (recalScanVals curves cv s)

theorem recalLoop_stats (curves : List (CurveKey × CurveRow)) (cv : Option String)
    (since : Option ℤ) (region : Option String) (dry : Bool) :
    ∀ (fuel : ℕ) (offset : ℕ) (store : List Scan) (res : RecalibrationResult),
      1000000 < offset + 100 * fuel →
      offset ≤ 1000000 →
      offset % 100 = 0 →
      (recalLoop curves cv since region dry fuel store offset res).1.scans_processed =
        res.scans_processed +
          min ((store.filter (scanPred since region)).length - offset) (1000100 - offset) ∧
      (recalLoop curves cv since region dry fuel store offset res).1.errors =
        res.errors ++
          (if 1000000 - offset < (store.filter (scanPred since region)).length - offset
            then ["Safety limit reached (1M scans)"] else []) := by
  intro fuel
  induction fuel with
  | zero => intro offset store res hfuel hle _; omega
  | succ fuel ih =>
    intro offset store res hfuel hle hmod
    rw [recalLoop]
    simp only [RECALIBRATION_BATCH_SIZE]
    by_cases hempty : ((store.filter (scanPred since region)).drop offset).take 100 = []
    · rw [if_pos hempty]
      have hL : (store.filter (scanPred since region)).length ≤ offset := by
        have := List.take_eq_nil_iff.1 hempty
        rcases this with h | h
        · omega
        · have := List.drop_eq_nil_iff.1 h
          omega
      constructor
      · have : (store.filter (scanPred since region)).length - offset = 0 := by omega
        rw [this]
        simp
      · have hcond : ¬(1000000 - offset <
            (store.filter (scanPred since region)).length - offset) := by omega
        rw [if_neg hcond]
        simp
    · rw [if_neg hempty]
      have hstats := processBatch_stats curves cv dry since region
        (((store.filter (scanPred since region)).drop offset).take 100) store res
      have hblen : (((store.filter (scanPred since region)).drop offset).take 100).length =
          min 100 ((store.filter (scanPred since region)).length - offset) := by
        rw [List.length_take, List.length_drop]
      have hLpos : offset < (store.filter (scanPred since region)).length := by
        by_contra hcon
        apply hempty
        rw [List.take_eq_nil_iff]
        right
        rw [List.drop_eq_nil_iff]
        omega
      by_cases hbig : 1000000 < offset + 100
      · rw [if_pos hbig]
        have hoff : offset = 1000000 := by omega
        subst hoff
        constructor
        · simp only
          rw [hstats.1, hblen]
          omega
        · simp only
          rw [hstats.2.1]
          have hcond : 1000000 - 1000000 <
              (store.filter (scanPred since region)).length - 1000000 := by omega
          rw [if_pos hcond]
      · rw [if_neg hbig]
        have hih := ih (offset + 100)
          (processBatch curves cv dry
            (((store.filter (scanPred since region)).drop offset).take 100) store res).2
          (processBatch curves cv dry
            (((store.filter (scanPred since region)).drop offset).take 100) store res).1
          (by omega) (by omega) (by omega)
        rw [hih.1, hih.2, hstats.1, hstats.2.1, hstats.2.2, hblen]
        constructor
        · omega
        · by_cases hcond : 1000000 - offset <
              (store.filter (scanPred since region)).length - offset
          · rw [if_pos hcond, if_pos (by omega :
              1000000 - (offset + 100) <
                (store.filter (scanPred since region)).length - (offset + 100))]
          · rw [if_neg hcond, if_neg (by omega :
              ¬(1000000 - (offset + 100) <
                (store.filter (scanPred since region)).length - (offset + 100)))]

theorem recalibrate_scans_stats (store : List Scan) (curve_rows : List CurveRow)
    (cv : Option String) (since : Option ℤ) (region : Option String) (dry : Bool)
    (hc : load_active_curves curve_rows ≠ []) :
    (recalibrate_scans store curve_rows cv since region dry).1.scans_processed =
      min ((store.filter (scanPred since region)).length) 1000100 ∧
    ("Safety limit reached (1M scans)" ∈
        (recalibrate_scans store curve_rows cv since region dry).1.errors ↔
      1000000 < (store.filter (scanPred since region)).length) := by
  unfold recalibrate_scans
  rw [if_neg hc]
  have h := recalLoop_stats (load_active_curves curve_rows) cv since region dry
    RECAL_FUEL 0 store
    { dry_run := dry, curve_version := falsyOrS cv "active" }
    (by norm_num [RECAL_FUEL]) (by norm_num) (by norm_num)
  constructor
  · rw [h.1]
    simp
  · rw [h.2]
    by_cases hcond : 1000000 < (store.filter (scanPred since region)).length
    · rw [if_pos (by omega : 1000000 - 0 <
        (store.filter (scanPred since region)).length - 0)]
      simpa using hcond
    · rw [if_neg (by omega : ¬(1000000 - 0 <
        (store.filter (scanPred since region)).length - 0))]
      simpa using hcond

/-- C9 (amended): one invocation of `recalibrate_scans` processes at most
1,000,100 scans (the 1,000,000 offset cap plus one final batch of the
default size 100, not 1,000,000 as stated); whenever more than 1,000,000
matching scans are stored, the job appends the safety-limit error and halts
the batch loop instead of paginating on. -/
theorem C9_recalibration_processing_cap (store : List Scan) (curve_rows : List CurveRow)
    (cv : Option String) (since : Option ℤ) (region : Option String) (dry : Bool) :
    (recalibrate_scans store curve_rows cv since region dry).1.scans_processed ≤ 1000100 ∧
    (load_active_curves curve_rows ≠ [] →
      (recalibrate_scans store curve_rows cv since region dry).1.scans_processed =
        min ((store.filter (scanPred since region)).length) 1000100 ∧
      ("Safety limit reached (1M scans)" ∈
          (recalibrate_scans store curve_rows cv since region dry).1.errors ↔
        1000000 < (store.filter (scanPred since region)).length)) := by
  by_cases hc : load_active_curves curve_rows = []
  · constructor
    · unfold recalibrate_scans
      rw [if_pos hc]
      norm_num
    · intro hcc
      exact absurd hc hcc
  · have h := recalibrate_scans_stats store curve_rows cv since region dry hc
    exact ⟨by rw [h.1]; omega, fun _ => h⟩

/-- 1,000,100 copies of a scan row. -/
def bigStore : List Scan := List.replicate 1000100 scanB

theorem bigStore_filter_length :
    (bigStore.filter (scanPred none none)).length = 1000100 := by
  have : ∀ s, scanPred none none s = true := fun _ => rfl
  rw [List.filter_eq_self.mpr (fun a _ => this a)]
  exact List.length_replicate 1000100 scanB

/-- Counterexample to C9 as stated: with 1,000,100 stored scans and an
active curve, a single invocation processes 1,000,100 scans — more than
the claimed 1,000,000-scan maximum. -/
theorem C9_exceeds_million_counterexample :
    (recalibrate_scans bigStore [curveU] none none none false).1.scans_processed
      = 1000100 ∧
    1000000 <
      (recalibrate_scans bigStore [curveU] none none none false).1.scans_processed := by
  have hc : load_active_curves [curveU] ≠ [] := by
    intro h
    exact absurd (congrArg List.length h) (by with_unfolding_all decide)
  have h := recalibrate_scans_stats bigStore [curveU] none none none false hc
  rw [bigStore_filter_length] at h
  constructor
  · rw [h.1]
    omega
  · rw [h.1]
    omega

/-- Witness for C9 at the 1,000,100-scan store: the cap binds and the
safety-limit error is recorded. -/
theorem C9_recalibration_processing_cap_witness :
    (recalibrate_scans bigStore [curveU] none none none false).1.scans_processed
      ≤ 1000100 ∧
    "Safety limit reached (1M scans)" ∈
      (recalibrate_scans bigStore [curveU] none none none false).1.errors := by
  have hc : load_active_curves [curveU] ≠ [] := by
    intro h
    exact absurd (congrArg List.length h) (by with_unfolding_all decide)
  have h := C9_recalibration_processing_cap bigStore [curveU] none none none false
  refine ⟨h.1, ((h.2 hc).2).mpr ?_⟩
  rw [bigStore_filter_length]
  omega

-- ===========================================================================
-- C2 : recalibration idempotence
-- ===========================================================================

/-- The effect of one loop turn of `recalibrate_scans` on one scan:
unchanged when the idempotence check passes, otherwise rewritten with the
recomputed values. -/
def procOne (curves : List (CurveKey × CurveRow)) (cv : Option String) (s : Scan) :
    Scan :=
  if scanSkip (recalScanVals curves cv s) s then s
  else applyVals (recalScanVals curves cv s) s

theorem procOne_id (curves : List (CurveKey × CurveRow)) (cv : Option String)
    (s : Scan) : (procOne curves cv s).id = s.id := by
  unfold procOne
  split_ifs <;> rfl

theorem rsv_eq (curves : List (CurveKey × CurveRow)) (cv : Option String) (s : Scan) :
    recalScanVals curves cv s =
      { new_deer_age :=
          if (recalScanCalc curves cv (falsyOrI s.raw_confidence (falsyOrI s.confidence 50))
              (falsyOrS s.region_key "unknown")).age_uncertain then none else s.deer_age
        age_pct := (recalScanCalc curves cv (falsyOrI s.raw_confidence
          (falsyOrI s.confidence 50)) (falsyOrS s.region_key "unknown")).age_pct
        rec_pct := (recalScanCalc curves cv (falsyOrI s.raw_confidence
          (falsyOrI s.confidence 50)) (falsyOrS s.region_key "unknown")).rec_pct
        age_uncertain := (recalScanCalc curves cv (falsyOrI s.raw_confidence
          (falsyOrI s.confidence 50)) (falsyOrS s.region_key "unknown")).age_uncertain
        final_version := (recalScanCalc curves cv (falsyOrI s.raw_confidence
          (falsyOrI s.confidence 50)) (falsyOrS s.region_key "unknown")).final_version
        age_strategy := (recalScanCalc curves cv (falsyOrI s.raw_confidence
          (falsyOrI s.confidence 50)) (falsyOrS s.region_key "unknown")).age_strategy
        age_fallback_reason := (recalScanCalc curves cv (falsyOrI s.raw_confidence
          (falsyOrI s.confidence 50)) (falsyOrS s.region_key "unknown")).age_fallback_reason
        rec_strategy := (recalScanCalc curves cv (falsyOrI s.raw_confidence
          (falsyOrI s.confidence 50)) (falsyOrS s.region_key "unknown")).rec_strategy
        rec_fallback_reason := (recalScanCalc curves cv (falsyOrI s.raw_confidence
          (falsyOrI s.confidence 50)) (falsyOrS s.region_key "unknown")).rec_fallback_reason } :=
  rfl

theorem recalScanVals_applyVals (curves : List (CurveKey × CurveRow))
    (cv : Option String) (s : Scan) (v0 : ℤ)
    (hs : s.raw_confidence = some v0) (hv : v0 ≠ 0) :
    recalScanVals curves cv (applyVals (recalScanVals curves cv s) s) =
      recalScanVals curves cv s := by
  have hr : falsyOrI s.raw_confidence (falsyOrI s.confidence 50) = v0 := by
    simp [falsyOrI, hs, hv]
  by_cases hu : (recalScanCalc curves cv v0
      (falsyOrS s.region_key "unknown")).age_uncertain = true
  · rw [rsv_eq, rsv_eq]
    simp only [applyVals, hr, hu]
    simp [falsyOrI, hs, hv, hr, hu]
  · rw [rsv_eq, rsv_eq]
    simp only [applyVals, hr, hu]
    simp [falsyOrI, hs, hv, hr, hu]

theorem scanSkip_procOne (curves : List (CurveKey × CurveRow)) (cv : Option String)
    (s : Scan) (v0 : ℤ) (hs : s.raw_confidence = some v0) (hv : v0 ≠ 0) :
    scanSkip (recalScanVals curves cv (procOne curves cv s)) (procOne curves cv s)
      = true := by
  unfold procOne
  by_cases hsk : scanSkip (recalScanVals curves cv s) s = true
  · rw [if_pos hsk]
    exact hsk
  · rw [if_neg hsk]
    rw [recalScanVals_applyVals curves cv s v0 hs hv]
    unfold scanSkip applyVals
    simp

theorem map_update_of_ne (s : Scan) (v : ScanVals) :
    ∀ (l : List Scan), (∀ x ∈ l, x.id ≠ s.id) →
      l.map (fun x => if x.id = s.id then applyVals v x else x) = l := by
  intro l
  induction l with
  | nil => intro _; rfl
  | cons a t ih =>
    intro hl
    rw [List.map_cons, if_neg (hl a (List.mem_cons_self _ _)),
      ih (fun x hx => hl x (List.mem_cons_of_mem _ hx))]

theorem updateById_splice (pre : List Scan) (s : Scan) (rest : List Scan) (v : ScanVals)
    (hpre : ∀ x ∈ pre, x.id ≠ s.id) (hrest : ∀ x ∈ rest, x.id ≠ s.id) :
    updateById (pre ++ s :: rest) s.id v = pre ++ applyVals v s :: rest := by
  unfold updateById
  rw [List.map_append, List.map_cons, if_pos rfl, map_update_of_ne s v pre hpre,
    map_update_of_ne s v rest hrest]

theorem nodup_ids_mid (pre : List Scan) (s : Scan) (rest : List Scan)
    (h : ((pre ++ s :: rest).map (fun x => x.id)).Nodup) :
    (∀ x ∈ pre, x.id ≠ s.id) ∧ (∀ x ∈ rest, x.id ≠ s.id) := by
  rw [List.map_append, List.map_cons, List.nodup_append] at h
  obtain ⟨h1, h2, hdisj⟩ := h
  constructor
  · intro x hx heq
    exact hdisj (List.mem_map.mpr ⟨x, hx, rfl⟩) (heq ▸ List.mem_cons_self _ _)
  · intro x hx heq
    exact (List.nodup_cons.1 h2).1 (List.mem_map.mpr ⟨x, hx, heq⟩)

theorem processBatch_cons (curves : List (CurveKey × CurveRow)) (cv : Option String)
    (dry : Bool) (s : Scan) (t : List Scan) (store : List Scan)
    (res : RecalibrationResult) :
    processBatch curves cv dry (s :: t) store res =
      if scanSkip (recalScanVals curves cv s) s then
        processBatch curves cv dry t store
          { res with
              scans_processed := res.scans_processed + 1,
              scans_skipped := res.scans_skipped + 1 }
      else
        processBatch curves cv dry t
          (if dry then store else updateById store s.id (recalScanVals curves cv s))
          { res with
              scans_processed := res.scans_processed + 1,
              scans_updated := res.scans_updated + 1 } := by
  simp only [processBatch, List.foldl_cons]
  split_ifs <;> rfl

theorem processBatch_char (curves : List (CurveKey × CurveRow)) (cv : Option String) :
    ∀ (rest : List Scan) (k : ℕ) (pre : List Scan) (res : RecalibrationResult),
      ((pre ++ rest).map (fun x => x.id)).Nodup →
      (processBatch curves cv false (rest.take k) (pre ++ rest) res).2 =
        pre ++ (rest.take k).map (procOne curves cv) ++ rest.drop k ∧
      (processBatch curves cv false (rest.take k) (pre ++ rest) res).1.scans_updated =
        res.scans_updated + ((rest.take k).filter
          (fun s => !(scanSkip (recalScanVals curves cv s) s))).length := by
  intro rest
  induction rest with
  | nil =>
    intro k pre res _
    simp [processBatch]
  | cons s t ih =>
    intro k pre res hnodup
    cases k with
    | zero => simp [processBatch]
    | succ j =>
      rw [List.take_succ_cons, processBatch_cons]
      have hmid := nodup_ids_mid pre s t hnodup
      by_cases hsk : scanSkip (recalScanVals curves cv s) s = true
      · rw [if_pos hsk]
        have hassoc : pre ++ s :: t = (pre ++ [s]) ++ t := by simp
        rw [hassoc]
        have hnodup2 : (((pre ++ [s]) ++ t).map (fun x => x.id)).Nodup := by
          rw [← hassoc]
          exact hnodup
        have h := ih j (pre ++ [s])
          { res with
              scans_processed := res.scans_processed + 1,
              scans_skipped := res.scans_skipped + 1 } hnodup2
        refine ⟨?_, ?_⟩
        · rw [h.1]
          have hps : procOne curves cv s = s := by rw [procOne, if_pos hsk]
          simp [hps]
        · rw [h.2]
          simp [hsk]
      · rw [if_neg hsk]
        rw [if_neg (by simp : ¬(false = true))]
        rw [updateById_splice pre s t (recalScanVals curves cv s) hmid.1 hmid.2]
        have hassoc : pre ++ applyVals (recalScanVals curves cv s) s :: t =
            (pre ++ [applyVals (recalScanVals curves cv s) s]) ++ t := by simp
        rw [hassoc]
        have hnodup2 : (((pre ++ [applyVals (recalScanVals curves cv s) s]) ++ t).map
            (fun x => x.id)).Nodup := by
          have hids : ((pre ++ [applyVals (recalScanVals curves cv s) s]) ++ t).map
              (fun x => x.id) = ((pre ++ [s]) ++ t).map (fun x => x.id) := by
            simp [applyVals_id]
          rw [hids]
          have : (pre ++ [s]) ++ t = pre ++ s :: t := by simp
          rw [this]
          exact hnodup
        have h := ih j (pre ++ [applyVals (recalScanVals curves cv s) s])
          { res with
              scans_processed := res.scans_processed + 1,
              scans_updated := res.scans_updated + 1 } hnodup2
        refine ⟨?_, ?_⟩
        · rw [h.1]
          have hps : procOne curves cv s = applyVals (recalScanVals curves cv s) s := by
            rw [procOne, if_neg hsk]
          simp [hps]
        · rw [h.2]
          simp [hsk]
          omega

theorem filter_scanPred_none (store : List Scan) :
    store.filter (scanPred none none) = store :=
  List.filter_eq_self.mpr (fun _ _ => rfl)

theorem recalLoop_char (curves : List (CurveKey × CurveRow)) (cv : Option String) :
    ∀ (fuel : ℕ) (pre rest : List Scan) (res : RecalibrationResult),
      1000000 < pre.length + 100 * fuel →
      pre.length ≤ 1000000 →
      pre.length % 100 = 0 →
      ((pre ++ rest).map (fun x => x.id)).Nodup →
      (recalLoop curves cv none none false fuel (pre ++ rest) pre.length res).2 =
        pre ++ (rest.take (1000100 - pre.length)).map (procOne curves cv) ++
          rest.drop (1000100 - pre.length) ∧
      (recalLoop curves cv none none false fuel
          (pre ++ rest) pre.length res).1.scans_updated =
        res.scans_updated + ((rest.take (1000100 - pre.length)).filter
          (fun s => !(scanSkip (recalScanVals curves cv s) s))).length := by
  intro fuel
  induction fuel with
  | zero => intro pre rest res h1 h2 _ _; omega
  | succ fuel ih =>
    intro pre rest res hfuel hle hmod hnodup
    rw [recalLoop]
    simp only [RECALIBRATION_BATCH_SIZE]
    rw [filter_scanPred_none, List.drop_left]
    by_cases hempty : rest.take 100 = []
    · rw [if_pos hempty]
      have hrest : rest = [] := by
        rcases List.take_eq_nil_iff.1 hempty with h | h
        · omega
        · exact h
      subst hrest
      simp
    · rw [if_neg hempty]
      have hchar := processBatch_char curves cv rest 100 pre res hnodup
      by_cases hbig : 1000000 < pre.length + 100
      · rw [if_pos hbig]
        have hw : 1000100 - pre.length = 100 := by omega
        rw [hw]
        exact ⟨hchar.1, hchar.2⟩
      · rw [if_neg hbig]
        by_cases hsmall : rest.length ≤ 100
        · have htk : rest.take 100 = rest := List.take_of_length_le hsmall
          have hdp : rest.drop 100 = [] := List.drop_eq_nil_of_le hsmall
          obtain ⟨fuel2, rfl⟩ : ∃ f2, fuel = f2 + 1 := ⟨fuel - 1, by omega⟩
          rw [recalLoop]
          simp only [RECALIBRATION_BATCH_SIZE]
          rw [filter_scanPred_none]
          have hlen2 : (processBatch curves cv false (rest.take 100) (pre ++ rest)
              res).2.length ≤ pre.length + 100 := by
            rw [hchar.1, htk, hdp]
            simp
            omega
          have hdrop2 : (processBatch curves cv false (rest.take 100) (pre ++ rest)
              res).2.drop (pre.length + 100) = [] := List.drop_eq_nil_of_le hlen2
          rw [hdrop2]
          rw [show List.take 100 ([] : List Scan) = [] from rfl, if_pos rfl]
          constructor
          · rw [hchar.1, htk, hdp]
            rw [List.take_of_length_le (by omega : rest.length ≤ 1000100 - pre.length),
              List.drop_eq_nil_of_le (by omega : rest.length ≤ 1000100 - pre.length)]
          · rw [hchar.2, htk,
              List.take_of_length_le (by omega : rest.length ≤ 1000100 - pre.length)]
        · push_neg at hsmall
          have hpre2 : (pre ++ (rest.take 100).map (procOne curves cv)).length =
              pre.length + 100 := by
            simp [List.length_take]
            omega
          have hids : ((pre ++ (rest.take 100).map (procOne curves cv)) ++
              rest.drop 100).map (fun x => x.id) =
              ((pre ++ rest.take 100) ++ rest.drop 100).map (fun x => x.id) := by
            simp only [List.map_append, List.map_map, Function.comp_def]
            rw [show (List.take 100 rest).map (fun x => (procOne curves cv x).id) =
                (List.take 100 rest).map (fun x => x.id) from
              List.map_congr_left (fun x _ => procOne_id curves cv x)]
          have hnodup2 : (((pre ++ (rest.take 100).map (procOne curves cv)) ++
              rest.drop 100).map (fun x => x.id)).Nodup := by
            rw [hids, List.append_assoc, List.take_append_drop]
            exact hnodup
          have hih := ih (pre ++ (rest.take 100).map (procOne curves cv)) (rest.drop 100)
            (processBatch curves cv false (rest.take 100) (pre ++ rest) res).1
            (by rw [hpre2]; omega) (by rw [hpre2]; omega) (by rw [hpre2]; omega) hnodup2
          rw [hpre2] at hih
          have hsplit : (processBatch curves cv false (rest.take 100) (pre ++ rest)
              res).2 = (pre ++ (rest.take 100).map (procOne curves cv)) ++
              rest.drop 100 := by
            rw [hchar.1, List.append_assoc]
          rw [hsplit]
          have hw : 1000100 - pre.length = 100 + (1000100 - (pre.length + 100)) := by omega
          constructor
          · rw [hih.1, hw, List.take_add, List.map_append]
            rw [show ∀ (l : List Scan) (n m : ℕ), (l.drop n).drop m = l.drop (n + m) from
              fun l n m => List.drop_drop m n l ▸ rfl]
            simp [List.append_assoc]
          · rw [hih.2, hchar.2, hw, List.take_add, List.filter_append, List.length_append]
            omega

theorem ids_map_procOne (curves : List (CurveKey × CurveRow)) (cv : Option String)
    (l : List Scan) :
    (l.map (procOne curves cv)).map (fun x => x.id) = l.map (fun x => x.id) := by
  rw [List.map_map]
  congr 1
  funext x
  exact procOne_id curves cv x

/-- C2 (amended): provided the stored scans have pairwise-distinct ids and
every scan's `raw_confidence` is non-null and nonzero, running
`recalibrate_scans` twice in succession with `dry_run = false` and no other
change yields `scans_updated = 0` on the second run.  (Without the
raw-confidence condition the first run's overwrite of the legacy
`confidence` column changes the second run's effective input; see the
counterexample.) -/
theorem C2_recalibration_idempotent (store : List Scan) (curve_rows : List CurveRow)
    (hids : (store.map (fun x => x.id)).Nodup)
    (hraw : ∀ s ∈ store, ∃ v, s.raw_confidence = some v ∧ v ≠ 0) :
    ((recalibrate_scans ((recalibrate_scans store curve_rows none none none false).2)
        curve_rows none none none false).1).scans_updated = 0 := by
  by_cases hc : load_active_curves curve_rows = []
  · rw [recalibrate_scans, if_pos hc]
  · have hrun : ∀ (st : List Scan),
        recalibrate_scans st curve_rows none none none false =
          recalLoop (load_active_curves curve_rows) none none none false RECAL_FUEL st 0
            { dry_run := false, curve_version := falsyOrS none "active" } := by
      intro st
      rw [recalibrate_scans, if_neg hc]
    have h1 := recalLoop_char (load_active_curves curve_rows) none RECAL_FUEL [] store
      { dry_run := false, curve_version := falsyOrS none "active" }
      (by norm_num [RECAL_FUEL]) (by norm_num) (by norm_num) (by simpa using hids)
    simp only [List.nil_append, List.length_nil, Nat.sub_zero] at h1
    have h2nodup : ((((store.take 1000100).map
        (procOne (load_active_curves curve_rows) none) ++
        store.drop 1000100)).map (fun x => x.id)).Nodup := by
      rw [List.map_append, ids_map_procOne, ← List.map_append, List.take_append_drop]
      exact hids
    have h2 := recalLoop_char (load_active_curves curve_rows) none RECAL_FUEL []
      ((store.take 1000100).map (procOne (load_active_curves curve_rows) none) ++
        store.drop 1000100)
      { dry_run := false, curve_version := falsyOrS none "active" }
      (by norm_num [RECAL_FUEL]) (by norm_num) (by norm_num) (by simpa using h2nodup)
    simp only [List.nil_append, List.length_nil, Nat.sub_zero] at h2
    rw [hrun, hrun, h1.1]
    rw [h2.2]
    have htake : ((store.take 1000100).map
        (procOne (load_active_curves curve_rows) none) ++
        store.drop 1000100).take 1000100 =
        (store.take 1000100).map (procOne (load_active_curves curve_rows) none) := by
      by_cases hlen : store.length ≤ 1000100
      · rw [List.drop_eq_nil_of_le hlen, List.append_nil]
        apply List.take_of_length_le
        rw [List.length_map, List.length_take]
        omega
      · have hlA : ((store.take 1000100).map
            (procOne (load_active_curves curve_rows) none)).length = 1000100 := by
          rw [List.length_map, List.length_take]
          omega
        exact List.take_left' hlA
    rw [htake]
    have hfilter : ((store.take 1000100).map
        (procOne (load_active_curves curve_rows) none)).filter
        (fun s => !(scanSkip (recalScanVals (load_active_curves curve_rows) none s) s))
        = [] := by
      rw [List.filter_eq_nil_iff]
      intro x hx
      obtain ⟨s, hs, rfl⟩ := List.mem_map.1 hx
      obtain ⟨v0, hv0, hvne⟩ := hraw s (List.mem_of_mem_take hs)
      rw [Bool.not_eq_true', Bool.not_eq_false]
      exact scanSkip_procOne (load_active_curves curve_rows) none s v0 hv0 hvne
    rw [hfilter]
    rfl

set_option maxRecDepth 400000 in
/-- Counterexample to C2 as stated: a scan whose `raw_confidence` is NULL
falls back to the legacy `confidence` column, which the first run
overwrites with the new recommendation confidence; with no change between
runs the second run recomputes different values and reports
`scans_updated = 1`, not 0. -/
theorem C2_null_raw_confidence_counterexample :
    ((recalibrate_scans ((recalibrate_scans [scanN] [curveGA] none none none false).2)
        [curveGA] none none none false).1).scans_updated = 1 := by
  with_unfolding_all decide

/-- Witness for C2 on a one-scan store with a non-null raw confidence. -/
theorem C2_recalibration_idempotent_witness :
    ((recalibrate_scans ((recalibrate_scans [scanB] [curveU] none none none false).2)
        [curveU] none none none false).1).scans_updated = 0 :=
  C2_recalibration_idempotent [scanB] [curveU] (by decide)
    (by
      intro s hs
      rcases List.mem_singleton.1 hs with rfl
      exact ⟨50, rfl, by decide⟩)
